import Mathlib

/-!
Verification of the `md2html` HTML-generation core against its specification.

The Rust sources are shallowly embedded:

* `src/html.rs`   : the output node model (`Meta`, `Tag`, the serializer
  `Element::write_recursive`) is embedded as `Meta`, `Tag`, `toHtml`.
* `src/replacer.rs`: the typography/emoticon substitution passes are embedded
  at the byte (UTF-8) level, since the Rust code manipulates byte offsets.
  Texts are `List Nat` of byte values; `utf8` converts a literal.
  Machine-integer (`usize`) subtractions that can underflow are modelled as
  checked operations returning `Option` (Rust's arithmetic-overflow program
  error, which traps in builds with overflow checks); a panic anywhere is
  `none`.
* `src/utils.rs`  : the slug generator, the footnote resolver, the TOC
  builder and the document assembler `init`.
* `src/main.rs`   : the recursive transducer `iter_nodes` over the parsed
  input tree (`Node`), threading the accumulator `State`.

External collaborators (the `fancy_regex` engine is driven by the literal
patterns of `replacer.rs`, which are embedded; the `emojis` crate's
gemoji shortcode table; `syntect` highlighting; `toml`/`url` parsing;
`css_minify`) are at the interface boundary: the two fixed data tables are
embedded as data, the opaque functions are parameters.
-/

namespace MdHtml

/-- UTF-8 encoding of one scalar value, used to move between Lean string
literals and the byte strings manipulated by `replacer.rs`. -/
def charUtf8 (c : Char) : List Nat :=
  let n := c.toNat
  if n < 128 then [n]
  else if n < 2048 then [192 + n / 64, 128 + n % 64]
  else if n < 65536 then [224 + n / 4096, 128 + n / 64 % 64, 128 + n % 64]
  else [240 + n / 262144, 128 + n / 4096 % 64, 128 + n / 64 % 64, 128 + n % 64]

/-- The UTF-8 bytes of a string (Rust `str` contents, `m.start()`/`m.end()`
offsets of `fancy_regex` index into these bytes). -/
def utf8 (s : String) : List Nat :=
  s.data.foldr (fun c acc => charUtf8 c ++ acc) []

/-! ## Node model (`src/html.rs`) -/

mutual

/-- `Meta` of `html.rs`: an ordered attribute list (opaque pre-formatted
strings) and an ordered child list. -/
inductive Meta where
  | mk (attrs : List String) (children : List Tag)

/-- The enum `Element` of `html.rs` (`main.rs`/`utils.rs` import it under
the name `Tag`). -/
inductive Tag where
  | Doctype (m : Meta)
  | Html (head : Tag) (body : Tag)
  | Head (m : Meta)
  | Title (m : Meta)
  | Link (m : Meta)
  | Meta (m : Meta)
  | Body (m : Meta)
  | H1 (m : Meta)
  | H2 (m : Meta)
  | H3 (m : Meta)
  | H4 (m : Meta)
  | H5 (m : Meta)
  | H6 (m : Meta)
  | P (m : Meta)
  | Hr (m : Meta)
  | Pre (m : Meta)
  | Blockquote (m : Meta)
  | Ol (m : Meta)
  | Ul (m : Meta)
  | Li (m : Meta)
  | Dl (m : Meta)
  | Dt (m : Meta)
  | Dd (m : Meta)
  | Div (m : Meta)
  | Table (m : Meta)
  | Tr (m : Meta)
  | Th (m : Meta)
  | Td (m : Meta)
  | Img (m : Meta)
  | A (m : Meta)
  | I (m : Meta)
  | B (m : Meta)
  | S (m : Meta)
  | Sub (m : Meta)
  | Sup (m : Meta)
  | Code (m : Meta)
  | Mark (m : Meta)
  | Span (m : Meta)
  | Br (m : Meta)
  | Style (m : Meta)
  | Section (m : Meta)
  | U (m : Meta)
  | Details (m : Meta)
  | Summary (m : Meta)
  | Thead (m : Meta)
  | Tbody (m : Meta)
  | Comment (s : String)
  | Text (s : String)
  | Raw (s : String)
  | Empty

end

/-- `Meta::new()` -/
def Meta.new : Meta := Meta.mk [] []

def Meta.attrs : Meta → List String
  | Meta.mk a _ => a

def Meta.children : Meta → List Tag
  | Meta.mk _ c => c

/-- `Meta::with_children`: replaces the child list wholesale. -/
def Meta.with_children (m : Meta) (children : List Tag) : Meta :=
  Meta.mk m.attrs children

/-- `Meta::with_child` -/
def Meta.with_child (m : Meta) (child : Tag) : Meta :=
  Meta.mk m.attrs [child]

/-- `Meta::with_attrs`: replaces the attribute list wholesale. -/
def Meta.with_attrs (m : Meta) (attrs : List String) : Meta :=
  Meta.mk attrs m.children

/-- `Meta::with_attr` -/
def Meta.with_attr (m : Meta) (attr : String) : Meta :=
  Meta.mk [attr] m.children

/-- `Element::tag_name` of `html.rs` (empty for the special variants). -/
def Tag.tag_name : Tag → String
  | .Head _ => "head"
  | .Title _ => "title"
  | .Link _ => "link"
  | .Meta _ => "meta"
  | .Body _ => "body"
  | .H1 _ => "h1"
  | .H2 _ => "h2"
  | .H3 _ => "h3"
  | .H4 _ => "h4"
  | .H5 _ => "h5"
  | .H6 _ => "h6"
  | .P _ => "p"
  | .Hr _ => "hr"
  | .Pre _ => "pre"
  | .Blockquote _ => "blockquote"
  | .Ol _ => "ol"
  | .Ul _ => "ul"
  | .Li _ => "li"
  | .Dl _ => "dl"
  | .Dt _ => "dt"
  | .Dd _ => "dd"
  | .Div _ => "div"
  | .Table _ => "table"
  | .Tr _ => "tr"
  | .Th _ => "th"
  | .Td _ => "td"
  | .Img _ => "img"
  | .A _ => "a"
  | .I _ => "i"
  | .B _ => "b"
  | .S _ => "s"
  | .Sub _ => "sub"
  | .Sup _ => "sup"
  | .Code _ => "code"
  | .Mark _ => "mark"
  | .Span _ => "span"
  | .Br _ => "br"
  | .Style _ => "style"
  | .Section _ => "section"
  | .U _ => "u"
  | .Details _ => "details"
  | .Summary _ => "summary"
  | .Thead _ => "thead"
  | .Tbody _ => "tbody"
  | _ => ""

/-- The serialized attribute segment: `write_recursive` writes one space
followed by each pre-formatted attribute. -/
def attrsHtml (attrs : List String) : String :=
  String.join (attrs.map (fun attr => " " ++ attr))

mutual

/-- `Element::write_recursive` of `html.rs`, with the `writer` made
explicit: returns the string appended to the output (serialization,
`Element::to_html`). -/
def toHtml (tag : Tag) : String :=
  match tag with
  | .Doctype m => "<!DOCTYPE html>\n" ++ metaChildrenHtml m
  | .Html head body =>
      "<html lang=\"en\">" ++ toHtml head ++ toHtml body ++ "</html>"
  | .Comment comment => "\n<!-- " ++ comment ++ " -->\n"
  | .Text s => s
  | .Raw s => s
  | .Empty => ""
  | .Link m | .Meta m | .Hr m | .Br m | .Img m =>
      "<" ++ tag.tag_name ++ attrsHtml (Meta.attrs m) ++ ">"
  | .Head m | .Title m | .H1 m | .H2 m | .H3 m | .H4 m | .H5 m
  | .H6 m | .Blockquote m | .Body m | .Thead m | .Ol m | .Ul m
  | .Li m | .Dl m | .Dt m | .Dd m | .Div m | .Table m | .Tr m
  | .Th m | .Td m | .Span m | .Style m | .Section m | .I m
  | .P m | .Code m | .Pre m | .B m | .S m | .Sub m | .Sup m
  | .Mark m | .A m | .U m | .Details m | .Summary m | .Tbody m =>
      "<" ++ tag.tag_name ++ attrsHtml (Meta.attrs m) ++ ">"
        ++ metaChildrenHtml m ++ "</" ++ tag.tag_name ++ ">"

/-- Recursive serialization of a node's children. -/
def metaChildrenHtml : Meta → String
  | .mk _ children => tagListHtml children

/-- Serialization of a child list, in order. -/
def tagListHtml : List Tag → String
  | [] => ""
  | t :: ts => toHtml t ++ tagListHtml ts

end

/-! ## Text substitution pipeline (`src/replacer.rs`)

Strings are handled at the UTF-8 byte level (`List Nat`), because the Rust
code drives `String::replace_range` with byte offsets coming from
`fancy_regex` matches.  The two regular expressions of `replacer.rs` are
pure alternations of literal tokens (the emoticon one bounded by
`(?<=^|\s)`/`(?=$|\s)` lookarounds), so the engine is embedded directly:
scan byte positions left to right, and at each position try the
alternatives in the order they appear in the pattern, exactly the
backtracking engine's behaviour on these patterns.  `\s` is modelled by its
ASCII cases (all inputs of interest are ASCII around the match
boundaries). -/

/-- The regex character class `\s` (ASCII cases). -/
def isWs (b : Nat) : Bool :=
  b == 32 || b == 9 || b == 10 || b == 11 || b == 12 || b == 13

/-- The alternatives of `EMOTICON_REGEX` (`replacer.rs` line 10), in the
order they appear in the pattern. -/
def EMOTICON_ALTS : List (List Nat) :=
  [utf8 ">:(", utf8 ">:-(", utf8 ":\")", utf8 ":-\")", utf8 "</3",
   utf8 "<\\3", utf8 ":/", utf8 ":-/", utf8 ":'(", utf8 ":'-(",
   utf8 ":,(", utf8 ":,-(", utf8 ":(", utf8 ":-(", utf8 "<3",
   utf8 "]:(", utf8 "]:-(", utf8 "o:)", utf8 "O:)", utf8 "o:-)",
   utf8 "O:-)", utf8 "0:)", utf8 "0:-)", utf8 ":')", utf8 ":'-)",
   utf8 ":,)", utf8 ":,-)", utf8 ":'D", utf8 ":'-D", utf8 ":,D",
   utf8 ":,-D", utf8 ":*", utf8 ":-*", utf8 "x-)", utf8 "X-)",
   utf8 ":|", utf8 ":-|", utf8 ":o", utf8 ":-o", utf8 ":O",
   utf8 ":-O", utf8 ":@", utf8 ":-@", utf8 ":D", utf8 ":-D",
   utf8 ":)", utf8 ":-)", utf8 "]:)", utf8 "]:-)", utf8 ":,'(",
   utf8 ":,'-(", utf8 ";(", utf8 ";-(", utf8 ":P", utf8 ":-P",
   utf8 "8-)", utf8 "B-)", utf8 ",:(", utf8 ",:-(", utf8 ",:)",
   utf8 ",:-)", utf8 ":s", utf8 ":-S", utf8 ":z", utf8 ":-Z",
   utf8 ":$", utf8 ":-$", utf8 ";)", utf8 ";-)"]

/-- The `EMOTICONS` map of `replacer.rs`: emoticon token → emoji shortcode
(a `HashMap`, modelled as an association list; only lookups are
performed). -/
def EMOTICONS : List (List Nat × String) :=
  [(utf8 ">:(", "angry"), (utf8 ">:-(", "angry"),
   (utf8 ":\")", "blush"), (utf8 ":-\")", "blush"),
   (utf8 "</3", "broken_heart"), (utf8 "<\\3", "broken_heart"),
   (utf8 ":/", "confused"), (utf8 ":-/", "confused"),
   (utf8 ":'(", "cry"), (utf8 ":'-(", "cry"),
   (utf8 ":,(", "cry"), (utf8 ":,-(", "cry"),
   (utf8 ":(", "frowning"), (utf8 ":-(", "frowning"),
   (utf8 "<3", "heart"),
   (utf8 "]:(", "imp"), (utf8 "]:-(", "imp"),
   (utf8 "o:)", "innocent"), (utf8 "O:)", "innocent"),
   (utf8 "o:-)", "innocent"), (utf8 "O:-)", "innocent"),
   (utf8 "0:)", "innocent"), (utf8 "0:-)", "innocent"),
   (utf8 ":')", "joy"), (utf8 ":'-)", "joy"),
   (utf8 ":,)", "joy"), (utf8 ":,-)", "joy"),
   (utf8 ":'D", "joy"), (utf8 ":'-D", "joy"),
   (utf8 ":,D", "joy"), (utf8 ":,-D", "joy"),
   (utf8 ":*", "kissing"), (utf8 ":-*", "kissing"),
   (utf8 "x-)", "laughing"), (utf8 "X-)", "laughing"),
   (utf8 ":|", "neutral_face"), (utf8 ":-|", "neutral_face"),
   (utf8 ":o", "open_mouth"), (utf8 ":-o", "open_mouth"),
   (utf8 ":O", "open_mouth"), (utf8 ":-O", "open_mouth"),
   (utf8 ":@", "rage"), (utf8 ":-@", "rage"),
   (utf8 ":D", "smile"), (utf8 ":-D", "smile"),
   (utf8 ":)", "smiley"), (utf8 ":-)", "smiley"),
   (utf8 "]:)", "smiling_imp"), (utf8 "]:-)", "smiling_imp"),
   (utf8 ":,'(", "sob"), (utf8 ":,'-(", "sob"),
   (utf8 ";(", "sob"), (utf8 ";-(", "sob"),
   (utf8 ":P", "stuck_out_tongue"), (utf8 ":-P", "stuck_out_tongue"),
   (utf8 "8-)", "sunglasses"), (utf8 "B-)", "sunglasses"),
   (utf8 ",:(", "sweat"), (utf8 ",:-(", "sweat"),
   (utf8 ",:)", "sweat_smile"), (utf8 ",:-)", "sweat_smile"),
   (utf8 ":s", "unamused"), (utf8 ":-S", "unamused"),
   (utf8 ":z", "unamused"), (utf8 ":-Z", "unamused"),
   (utf8 ":$", "unamused"), (utf8 ":-$", "unamused"),
   (utf8 ";)", "wink"), (utf8 ";-)", "wink")]

/-- Modelled from the external `emojis` crate (gemoji data): the glyph
returned by `emojis::get_by_shortcode` for each shortcode the `EMOTICONS`
table uses (stored as its UTF-8 bytes). -/
def EMOJI_GLYPHS : List (String × List Nat) :=
  [("angry", utf8 "😠"), ("blush", utf8 "😊"), ("broken_heart", utf8 "💔"),
   ("confused", utf8 "😕"), ("cry", utf8 "😢"), ("frowning", utf8 "😦"),
   ("heart", utf8 "❤️"), ("imp", utf8 "👿"), ("innocent", utf8 "😇"),
   ("joy", utf8 "😂"), ("kissing", utf8 "😗"), ("laughing", utf8 "😆"),
   ("neutral_face", utf8 "😐"), ("open_mouth", utf8 "😮"),
   ("rage", utf8 "😡"), ("smile", utf8 "😄"), ("smiley", utf8 "😃"),
   ("smiling_imp", utf8 "😈"), ("sob", utf8 "😭"),
   ("stuck_out_tongue", utf8 "😛"), ("sunglasses", utf8 "😎"),
   ("sweat", utf8 "😓"), ("sweat_smile", utf8 "😅"),
   ("unamused", utf8 "😒"), ("wink", utf8 "😉")]

/-- `emojis::get_by_shortcode(EMOTICONS[token]).unwrap().as_str()`:
the replacement bytes for a matched emoticon token (`none` = panic). -/
def emojiB (t : List Nat) : Option (List Nat) :=
  (List.lookup t EMOTICONS).bind (fun sc => List.lookup sc EMOJI_GLYPHS)

/-- The lookbehind `(?<=^|\s)` of `EMOTICON_REGEX` at byte position `i`. -/
def lookbehindOk (s : List Nat) (i : Nat) : Bool :=
  match i with
  | 0 => true
  | j + 1 => match s[j]? with
    | some b => isWs b
    | none => false

/-- The lookahead `(?=$|\s)` of `EMOTICON_REGEX`, `j` bytes into the rest
of the string (a match at absolute position `i` checks the byte at
`i + len`, i.e. byte `len` of the suffix starting at the match). -/
def lookaheadOk (rest : List Nat) (j : Nat) : Bool :=
  match rest[j]? with
  | some b => isWs b
  | none => true

/-- Try the pattern's alternatives against the suffix of the string that
starts at the scan position, in pattern order, and return the first token
that matches there (prefix match plus lookahead — on lookahead failure the
engine backtracks into the next alternative). -/
def firstEmoticonAt (rest : List Nat) : List (List Nat) → Option (List Nat)
  | [] => none
  | t :: ts =>
    if t.isPrefixOf rest && lookaheadOk rest t.length then some t
    else firstEmoticonAt rest ts

/-- The non-overlapping left-to-right match scan of
`EMOTICON_REGEX.find_iter`: fuel-indexed (structural) scan over byte
positions; the position advances past each match. -/
def findEmoticonAux (s : List Nat) : Nat → Nat → List (Nat × List Nat)
  | 0, _ => []
  | fuel + 1, i =>
    if i < s.length then
      if lookbehindOk s i then
        match firstEmoticonAt (s.drop i) EMOTICON_ALTS with
        | some t => (i, t) :: findEmoticonAux s fuel (i + t.length)
        | none => findEmoticonAux s fuel (i + 1)
      else findEmoticonAux s fuel (i + 1)
    else []

/-- All matches of `EMOTICON_REGEX` in `s`, as (byte position, token)
pairs, in order (`find_iter` over the original string). -/
def findEmoticonMatches (s : List Nat) : List (Nat × List Nat) :=
  findEmoticonAux s (s.length + 1) 0

/-- `usize` subtraction with Rust's arithmetic-overflow check: `none`
models the underflow program error (a panic when overflow checks are
enabled). -/
def checkedSub (a b : Nat) : Option Nat :=
  if b ≤ a then some (a - b) else none

/-- `String::replace_range(start..start+len, repl)` on the byte buffer:
panics (`none`) when the range exceeds the buffer.  (The char-boundary
requirement always holds here: matches start and end at ASCII bytes.) -/
def splice (buf : List Nat) (start len : Nat) (repl : List Nat) : Option (List Nat) :=
  if start + len ≤ buf.length then
    some (buf.take start ++ repl ++ buf.drop (start + len))
  else none

/-- The replacement loop of `replace_emoticons` (`replacer.rs` lines
120-128): for each match of the original string, look the emoji up,
replace at the offset-corrected position of the current buffer, then
update the running offset by `emoji.len() - match_len` — an (unsigned!)
`usize` subtraction. -/
def replaceEmoticonsGo (buf : List Nat) (offset : Nat) :
    List (Nat × List Nat) → Option (List Nat)
  | [] => some buf
  | (i, t) :: ms => do
      let emoji ← emojiB t
      let buf' ← splice buf (i + offset) t.length emoji
      let diff ← checkedSub emoji.length t.length
      replaceEmoticonsGo buf' (offset + diff) ms

/-- `replace_emoticons` of `replacer.rs`. -/
def replace_emoticons (s : List Nat) : Option (List Nat) :=
  replaceEmoticonsGo s 0 (findEmoticonMatches s)

/-- The alternatives of `TYPOGRAPHER_REGEX` (`replacer.rs` line 7)
`(\((c|tm|r|p|C|TM|R|P)\))|(\+-|\.\.\.)`, in pattern order. -/
def TYPO_ALTS : List (List Nat) :=
  [utf8 "(c)", utf8 "(tm)", utf8 "(r)", utf8 "(p)", utf8 "(C)",
   utf8 "(TM)", utf8 "(R)", utf8 "(P)", utf8 "+-", utf8 "..."]

/-- The `TYPOGRAPHER` map of `replacer.rs`: token → symbol (bytes). -/
def TYPOGRAPHER : List (List Nat × List Nat) :=
  [(utf8 "(c)", utf8 "©"), (utf8 "(C)", utf8 "©"),
   (utf8 "(tm)", utf8 "™"), (utf8 "(TM)", utf8 "™"),
   (utf8 "(r)", utf8 "®"), (utf8 "(R)", utf8 "®"),
   (utf8 "(p)", utf8 "℗"), (utf8 "(P)", utf8 "℗"),
   (utf8 "+-", utf8 "±"), (utf8 "...", utf8 "…")]

/-- First alternative of `TYPOGRAPHER_REGEX` matching against the suffix
at the scan position (no lookarounds in this pattern). -/
def firstTypoAt (rest : List Nat) : List (List Nat) → Option (List Nat)
  | [] => none
  | t :: ts =>
    if t.isPrefixOf rest then some t else firstTypoAt rest ts

/-- `TYPOGRAPHER_REGEX.find_iter`: non-overlapping left-to-right scan. -/
def findTypoAux (s : List Nat) : Nat → Nat → List (Nat × List Nat)
  | 0, _ => []
  | fuel + 1, i =>
    if i < s.length then
      match firstTypoAt (s.drop i) TYPO_ALTS with
      | some t => (i, t) :: findTypoAux s fuel (i + t.length)
      | none => findTypoAux s fuel (i + 1)
    else []

/-- All matches of `TYPOGRAPHER_REGEX` in `s`. -/
def findTypoMatches (s : List Nat) : List (Nat × List Nat) :=
  findTypoAux s (s.length + 1) 0

/-- The replacement loop of `replace_typographer` (`replacer.rs` lines
105-111): here the buffer shrinks, so the offset is subtracted from the
match position (`m.start() - offset .. m.end() - offset`) and grows by
`match_len - replacement_len`. -/
def replaceTypographerGo (buf : List Nat) (offset : Nat) :
    List (Nat × List Nat) → Option (List Nat)
  | [] => some buf
  | (i, t) :: ms => do
      let typography ← List.lookup t TYPOGRAPHER
      let start ← checkedSub i offset
      let buf' ← splice buf start t.length typography
      let diff ← checkedSub t.length typography.length
      replaceTypographerGo buf' (offset + diff) ms

/-- `replace_typographer` of `replacer.rs`. -/
def replace_typographer (s : List Nat) : Option (List Nat) :=
  replaceTypographerGo s 0 (findTypoMatches s)

/-- Reference semantics for the emoticon replacement loop: rebuild the
output from the *original* string by copying the untouched span before each
match and then the match's replacement ("correct byte position" semantics;
the spec's §9 recommends exactly this construction as equivalent). -/
def spansFrom (s : List Nat) (pos : Nat) :
    List (Nat × List Nat) → Option (List Nat)
  | [] => some (s.drop pos)
  | (i, t) :: ms => do
      let emoji ← emojiB t
      let rest ← spansFrom s (i + t.length) ms
      some ((s.drop pos).take (i - pos) ++ emoji ++ rest)

/-- The match list is left-to-right, non-overlapping and in bounds,
relative to a scan position. -/
def chainOk (s : List Nat) : Nat → List (Nat × List Nat) → Prop
  | _, [] => True
  | pos, (i, t) :: ms => pos ≤ i ∧ i + t.length ≤ s.length ∧ chainOk s (i + t.length) ms

/-- A match is well-behaved for the offset arithmetic: its token resolves
to an emoji whose byte length is at least the token's byte length. -/
def matchOkB (m : Nat × List Nat) : Bool :=
  match emojiB m.2 with
  | some e => decide (m.2.length ≤ e.length)
  | none => false

/-- The byte list is empty or starts with regex whitespace. -/
def wsHead : List Nat → Bool
  | [] => true
  | b :: _ => isWs b

/-- The byte list is empty or ends with regex whitespace. -/
def wsLast : List Nat → Bool
  | [] => true
  | [b] => isWs b
  | _ :: rest => wsLast rest

/-! ## Slug generator (`src/utils.rs`) -/

/-- The fold table of `remove_diacritics` (`utils.rs` lines 39-197), one
row per `match` arm of the source in source order: the characters of the
arm's pattern and the string pushed for them (`acc.push(c)` /
`acc.push_str(s)`). -/
def DIACRITIC_TABLE : List (List Char × String) :=
  [(['A', 'Ⓐ', 'Ａ', 'À', 'Á', 'Â', 'Ầ', 'Ấ', 'Ẫ', 'Ẩ', 'Ã', 'Ā', 'Ă', 'Ằ', 'Ắ', 'Ẵ', 'Ẳ', 'Ȧ', 'Ǡ', 'Ä', 'Ǟ', 'Ả', 'Å', 'Ǻ', 'Ǎ', 'Ȁ', 'Ȃ', 'Ạ', 'Ậ', 'Ặ', 'Ḁ', 'Ą', 'Ⱥ', 'Ɐ'], "A"),
   (['Ꜳ'], "AA"),
   (['Æ', 'Ǽ', 'Ǣ'], "A"),
   (['Ꜵ'], "AO"),
   (['Ꜷ'], "AU"),
   (['Ꜹ', 'Ꜻ'], "AV"),
   (['Ꜽ'], "AY"),
   (['B', 'Ⓑ', 'Ｂ', 'Ḃ', 'Ḅ', 'Ḇ', 'Ƀ', 'Ƃ', 'Ɓ'], "B"),
   (['C', 'Ⓒ', 'Ｃ', 'Ć', 'Ĉ', 'Ċ', 'Č', 'Ç', 'Ḉ', 'Ƈ', 'Ȼ', 'Ꜿ'], "C"),
   (['D', 'Ⓓ', 'Ｄ', 'Ḋ', 'Ď', 'Ḍ', 'Ḑ', 'Ḓ', 'Ḏ', 'Đ', 'Ƌ', 'Ɗ', 'Ɖ', 'Ꝺ'], "D"),
   (['Ǳ', 'Ǆ'], "DZ"),
   (['ǲ', 'ǅ'], "Dz"),
   (['E', 'Ⓔ', 'Ｅ', 'È', 'É', 'Ê', 'Ề', 'Ế', 'Ễ', 'Ể', 'Ẽ', 'Ē', 'Ḕ', 'Ḗ', 'Ĕ', 'Ė', 'Ë', 'Ẻ', 'Ě', 'Ȅ', 'Ȇ', 'Ẹ', 'Ệ', 'Ȩ', 'Ḝ', 'Ę', 'Ḙ', 'Ḛ', 'Ɛ', 'Ǝ'], "E"),
   (['F', 'Ⓕ', 'Ｆ', 'Ḟ', 'Ƒ', 'Ꝼ'], "F"),
   (['G', 'Ⓖ', 'Ｇ', 'Ǵ', 'Ĝ', 'Ḡ', 'Ğ', 'Ġ', 'Ǧ', 'Ģ', 'Ǥ', 'Ɠ', 'Ꞡ', 'Ᵹ', 'Ꝿ'], "G"),
   (['H', 'Ⓗ', 'Ｈ', 'Ĥ', 'Ḣ', 'Ḧ', 'Ȟ', 'Ḥ', 'Ḩ', 'Ḫ', 'Ħ', 'Ⱨ', 'Ⱶ', 'Ɥ'], "H"),
   (['I', 'Ⓘ', 'Ｉ', 'Ì', 'Í', 'Î', 'Ĩ', 'Ī', 'Ĭ', 'İ', 'Ï', 'Ḯ', 'Ỉ', 'Ǐ', 'Ȉ', 'Ȋ', 'Ị', 'Į', 'Ḭ', 'Ɨ'], "I"),
   (['J', 'Ⓙ', 'Ｊ', 'Ĵ', 'Ɉ'], "J"),
   (['K', 'Ⓚ', 'Ｋ', 'Ḱ', 'Ǩ', 'Ḳ', 'Ķ', 'Ḵ', 'Ƙ', 'Ⱪ', 'Ꝁ', 'Ꝃ', 'Ꝅ', 'Ꞣ'], "K"),
   (['L', 'Ⓛ', 'Ｌ', 'Ŀ', 'Ĺ', 'Ľ', 'Ḷ', 'Ḹ', 'Ļ', 'Ḽ', 'Ḻ', 'Ł', 'Ƚ', 'Ɫ', 'Ⱡ', 'Ꝉ', 'Ꝇ', 'Ꞁ'], "L"),
   (['Ǉ'], "LJ"),
   (['ǈ'], "Lj"),
   (['M', 'Ⓜ', 'Ｍ', 'Ḿ', 'Ṁ', 'Ṃ', 'Ɱ', 'Ɯ'], "M"),
   (['N', 'Ⓝ', 'Ｎ', 'Ǹ', 'Ń', 'Ñ', 'Ṅ', 'Ň', 'Ṇ', 'Ņ', 'Ṋ', 'Ṉ', 'Ƞ', 'Ɲ', 'Ꞑ', 'Ꞥ'], "N"),
   (['Ǌ'], "NJ"),
   (['ǋ'], "Nj"),
   (['O', 'Ⓞ', 'Ｏ', 'Ò', 'Ó', 'Ô', 'Ồ', 'Ố', 'Ỗ', 'Ổ', 'Õ', 'Ṍ', 'Ȭ', 'Ṏ', 'Ō', 'Ṑ', 'Ṓ', 'Ŏ', 'Ȯ', 'Ȱ', 'Ö', 'Ȫ', 'Ỏ', 'Ő', 'Ǒ', 'Ȍ', 'Ȏ', 'Ơ', 'Ờ', 'Ớ', 'Ỡ', 'Ở', 'Ợ', 'Ọ', 'Ộ', 'Ǫ', 'Ǭ', 'Ø', 'Ǿ', 'Ɔ', 'Ɵ', 'Ꝋ', 'Ꝍ'], "O"),
   (['Ƣ'], "OI"),
   (['Ꝏ'], "OO"),
   (['Ȣ'], "OU"),
   (['\u008C', 'Œ'], "OE"),
   (['\u009C', 'œ'], "oe"),
   (['P', 'Ⓟ', 'Ｐ', 'Ṕ', 'Ṗ', 'Ƥ', 'Ᵽ', 'Ꝑ', 'Ꝓ', 'Ꝕ'], "P"),
   (['Q', 'Ⓠ', 'Ｑ', 'Ꝗ', 'Ꝙ', 'Ɋ'], "Q"),
   (['R', 'Ⓡ', 'Ｒ', 'Ŕ', 'Ṙ', 'Ř', 'Ȑ', 'Ȓ', 'Ṛ', 'Ṝ', 'Ŗ', 'Ṟ', 'Ɍ', 'Ɽ', 'Ꝛ', 'Ꞧ', 'Ꞃ'], "R"),
   (['S', 'Ⓢ', 'Ｓ', 'ẞ', 'Ś', 'Ṥ', 'Ŝ', 'Ṡ', 'Š', 'Ṧ', 'Ṣ', 'Ṩ', 'Ș', 'Ş', 'Ȿ', 'Ꞩ', 'Ꞅ'], "S"),
   (['T', 'Ⓣ', 'Ｔ', 'Ṫ', 'Ť', 'Ṭ', 'Ț', 'Ţ', 'Ṱ', 'Ṯ', 'Ŧ', 'Ƭ', 'Ʈ', 'Ⱦ', 'Ꞇ'], "T"),
   (['Ꜩ'], "TZ"),
   (['U', 'Ⓤ', 'Ｕ', 'Ù', 'Ú', 'Û', 'Ũ', 'Ṹ', 'Ū', 'Ṻ', 'Ŭ', 'Ü', 'Ǜ', 'Ǘ', 'Ǖ', 'Ǚ', 'Ủ', 'Ů', 'Ű', 'Ǔ', 'Ȕ', 'Ȗ', 'Ư', 'Ừ', 'Ứ', 'Ữ', 'Ử', 'Ự', 'Ụ', 'Ṳ', 'Ų', 'Ṷ', 'Ṵ', 'Ʉ'], "U"),
   (['V', 'Ⓥ', 'Ｖ', 'Ṽ', 'Ṿ', 'Ʋ', 'Ꝟ', 'Ʌ'], "V"),
   (['Ꝡ'], "VY"),
   (['W', 'Ⓦ', 'Ｗ', 'Ẁ', 'Ẃ', 'Ŵ', 'Ẇ', 'Ẅ', 'Ẉ', 'Ⱳ'], "W"),
   (['X', 'Ⓧ', 'Ｘ', 'Ẋ', 'Ẍ'], "X"),
   (['Y', 'Ⓨ', 'Ｙ', 'Ỳ', 'Ý', 'Ŷ', 'Ỹ', 'Ȳ', 'Ẏ', 'Ÿ', 'Ỷ', 'Ỵ', 'Ƴ', 'Ɏ', 'Ỿ'], "Y"),
   (['Z', 'Ⓩ', 'Ｚ', 'Ź', 'Ẑ', 'Ż', 'Ž', 'Ẓ', 'Ẕ', 'Ƶ', 'Ȥ', 'Ɀ', 'Ⱬ', 'Ꝣ'], "Z"),
   (['a', 'ⓐ', 'ａ', 'ẚ', 'à', 'á', 'â', 'ầ', 'ấ', 'ẫ', 'ẩ', 'ã', 'ā', 'ă', 'ằ', 'ắ', 'ẵ', 'ẳ', 'ȧ', 'ǡ', 'ä', 'ǟ', 'ả', 'å', 'ǻ', 'ǎ', 'ȁ', 'ȃ', 'ạ', 'ậ', 'ặ', 'ḁ', 'ą', 'ⱥ', 'ɐ'], "a"),
   (['ꜳ'], "aa"),
   (['æ', 'ǽ', 'ǣ'], "a"),
   (['ꜵ'], "ao"),
   (['ꜷ'], "au"),
   (['ꜹ', 'ꜻ'], "av"),
   (['ꜽ'], "ay"),
   (['b', 'ⓑ', 'ｂ', 'ḃ', 'ḅ', 'ḇ', 'ƀ', 'ƃ', 'ɓ', 'þ'], "b"),
   (['c', 'ⓒ', 'ｃ', 'ć', 'ĉ', 'ċ', 'č', 'ç', 'ḉ', 'ƈ', 'ȼ', 'ꜿ', 'ↄ'], "c"),
   (['d', 'ⓓ', 'ｄ', 'ḋ', 'ď', 'ḍ', 'ḑ', 'ḓ', 'ḏ', 'đ', 'ƌ', 'ɖ', 'ɗ', 'ꝺ'], "d"),
   (['ǳ', 'ǆ'], "dz"),
   (['e', 'ⓔ', 'ｅ', 'è', 'é', 'ê', 'ề', 'ế', 'ễ', 'ể', 'ẽ', 'ē', 'ḕ', 'ḗ', 'ĕ', 'ė', 'ë', 'ẻ', 'ě', 'ȅ', 'ȇ', 'ẹ', 'ệ', 'ȩ', 'ḝ', 'ę', 'ḙ', 'ḛ', 'ɇ', 'ɛ', 'ǝ'], "e"),
   (['f', 'ⓕ', 'ｆ', 'ḟ', 'ƒ', 'ꝼ'], "f"),
   (['g', 'ⓖ', 'ｇ', 'ǵ', 'ĝ', 'ḡ', 'ğ', 'ġ', 'ǧ', 'ģ', 'ǥ', 'ɠ', 'ꞡ', 'ᵹ', 'ꝿ'], "g"),
   (['h', 'ⓗ', 'ｈ', 'ĥ', 'ḣ', 'ḧ', 'ȟ', 'ḥ', 'ḩ', 'ḫ', 'ẖ', 'ħ', 'ⱨ', 'ⱶ', 'ɥ'], "h"),
   (['ƕ'], "hv"),
   (['i', 'ⓘ', 'ｉ', 'ì', 'í', 'î', 'ĩ', 'ī', 'ĭ', 'ï', 'ḯ', 'ỉ', 'ǐ', 'ȉ', 'ȋ', 'ị', 'į', 'ḭ', 'ɨ', 'ı'], "i"),
   (['j', 'ⓙ', 'ｊ', 'ĵ', 'ǰ', 'ɉ'], "j"),
   (['k', 'ⓚ', 'ｋ', 'ḱ', 'ǩ', 'ḳ', 'ķ', 'ḵ', 'ƙ', 'ⱪ', 'ꝁ', 'ꝃ', 'ꝅ', 'ꞣ'], "k"),
   (['l', 'ⓛ', 'ｌ', 'ŀ', 'ĺ', 'ľ', 'ḷ', 'ḹ', 'ļ', 'ḽ', 'ḻ', 'ſ', 'ł', 'ƚ', 'ɫ', 'ⱡ', 'ꝉ', 'ꞁ', 'ꝇ'], "l"),
   (['ǉ'], "lj"),
   (['m', 'ⓜ', 'ｍ', 'ḿ', 'ṁ', 'ṃ', 'ɱ', 'ɯ'], "m"),
   (['n', 'ⓝ', 'ｎ', 'ǹ', 'ń', 'ñ', 'ṅ', 'ň', 'ṇ', 'ņ', 'ṋ', 'ṉ', 'ƞ', 'ɲ', 'ŉ', 'ꞑ', 'ꞥ'], "n"),
   (['ǌ'], "nj"),
   (['o', 'ⓞ', 'ｏ', 'ò', 'ó', 'ô', 'ồ', 'ố', 'ỗ', 'ổ', 'õ', 'ṍ', 'ȭ', 'ṏ', 'ō', 'ṑ', 'ṓ', 'ŏ', 'ȯ', 'ȱ', 'ö', 'ȫ', 'ỏ', 'ő', 'ǒ', 'ȍ', 'ȏ', 'ơ', 'ờ', 'ớ', 'ỡ', 'ở', 'ợ', 'ọ', 'ộ', 'ǫ', 'ǭ', 'ø', 'ǿ', 'ɔ', 'ꝋ', 'ꝍ', 'ɵ'], "o"),
   (['ƣ'], "oi"),
   (['ȣ'], "ou"),
   (['ꝏ'], "oo"),
   (['p', 'ⓟ', 'ｐ', 'ṕ', 'ṗ', 'ƥ', 'ᵽ', 'ꝑ', 'ꝓ', 'ꝕ'], "p"),
   (['q', 'ⓠ', 'ｑ', 'ɋ', 'ꝗ', 'ꝙ'], "q"),
   (['r', 'ⓡ', 'ｒ', 'ŕ', 'ṙ', 'ř', 'ȑ', 'ȓ', 'ṛ', 'ṝ', 'ŗ', 'ṟ', 'ɍ', 'ɽ', 'ꝛ', 'ꞧ', 'ꞃ'], "r"),
   (['s', 'ⓢ', 'ｓ', 'ß', 'ś', 'ṥ', 'ŝ', 'ṡ', 'š', 'ṧ', 'ṣ', 'ṩ', 'ș', 'ş', 'ȿ', 'ꞩ', 'ꞅ', 'ẛ'], "s"),
   (['t', 'ⓣ', 'ｔ', 'ṫ', 'ẗ', 'ť', 'ṭ', 'ț', 'ţ', 'ṱ', 'ṯ', 'ŧ', 'ƭ', 'ʈ', 'ⱦ', 'ꞇ'], "t"),
   (['ꜩ'], "tz"),
   (['u', 'ⓤ', 'ｕ', 'ù', 'ú', 'û', 'ũ', 'ṹ', 'ū', 'ṻ', 'ŭ', 'ü', 'ǜ', 'ǘ', 'ǖ', 'ǚ', 'ủ', 'ů', 'ű', 'ǔ', 'ȕ', 'ȗ', 'ư', 'ừ', 'ứ', 'ữ', 'ử', 'ự', 'ụ', 'ṳ', 'ų', 'ṷ', 'ṵ', 'ʉ'], "u"),
   (['v', 'ⓥ', 'ｖ', 'ṽ', 'ṿ', 'ʋ', 'ꝟ', 'ʌ'], "v"),
   (['ꝡ'], "vy"),
   (['w', 'ⓦ', 'ｗ', 'ẁ', 'ẃ', 'ŵ', 'ẇ', 'ẅ', 'ẘ', 'ẉ', 'ⱳ'], "w"),
   (['x', 'ⓧ', 'ｘ', 'ẋ', 'ẍ'], "x"),
   (['y', 'ⓨ', 'ｙ', 'ỳ', 'ý', 'ŷ', 'ỹ', 'ȳ', 'ẏ', 'ÿ', 'ỷ', 'ẙ', 'ỵ', 'ƴ', 'ɏ', 'ỿ'], "y"),
   (['z', 'ⓩ', 'ｚ', 'ź', 'ẑ', 'ż', 'ž', 'ẓ', 'ẕ', 'ƶ', 'ȥ', 'ɀ', 'ⱬ', 'ꝣ'], "z"),
   (['·', '/', '_', ',', ':', ';', ' ', '\n', '\t', '\r'], "-")]

/-- One step of the fold in `remove_diacritics`: what gets pushed onto the
accumulator for the character `current` (unmatched characters pass through
unchanged). -/
def diacriticFold (current : Char) : String :=
  match DIACRITIC_TABLE.find? (fun row => row.1.contains current) with
  | some row => row.2
  | none => String.singleton current

/-- `remove_diacritics` of `utils.rs`: fold every character through the
fixed fold table. -/
def remove_diacritics (string : String) : String :=
  string.data.foldl (fun acc current => acc ++ diacriticFold current) ""

/-- Rust `str::to_lowercase` (ASCII range; the Unicode tables of the
full Rust implementation are external, and every character reaching this
point in the claims is ASCII). -/
def toLowerStr (s : String) : String :=
  String.mk (s.data.map Char.toLower)

/-- The character class `[a-z0-9 _]` complementing the `NON_ASCII_CHAR`
regex `[^a-z0-9 _]+` (`utils.rs` line 16). -/
def slugClassChar (c : Char) : Bool :=
  (decide ('a' ≤ c) && decide (c ≤ 'z')) ||
  (decide ('0' ≤ c) && decide (c ≤ '9')) ||
  c == ' ' || c == '_'

/-- `NON_ASCII_CHAR.replace_all(_, "-")`: each maximal run of characters
outside the class becomes a single `-` (the regex matches greedy `+`
runs, and `replace_all` rewrites each match). The `inRun` flag tracks
whether the previous character was part of a run. -/
def collapseNonClassAux : Bool → List Char → List Char
  | _, [] => []
  | inRun, c :: rest =>
    if slugClassChar c then c :: collapseNonClassAux false rest
    else if inRun then collapseNonClassAux true rest
    else '-' :: collapseNonClassAux true rest

/-- `NON_ASCII_CHAR.replace_all(s, "-")`. -/
def replaceNonAscii (s : String) : String :=
  String.mk (collapseNonClassAux false s.data)

/-- Rust `str::trim_matches('-')`: strip leading and trailing `-`. -/
def trimHyphens (s : String) : String :=
  String.mk (((s.data.dropWhile (fun c => c == '-')).reverse.dropWhile
    (fun c => c == '-')).reverse)

mutual

/-- The inner `iterate` of `heading_to_slug` (`utils.rs` lines 203-219):
collect the text payloads of all descendant text nodes, in order; the
listed container variants recurse into their children, everything else is
skipped. -/
def slugIterate : Tag → String
  | .Text text => text
  | .H1 m | .H2 m | .H3 m | .H4 m | .H5 m | .H6 m | .Blockquote m
  | .Body m | .Ol m | .Ul m | .Li m | .Dl m | .Dt m | .Dd m
  | .Div m | .Table m | .Tr m | .Th m | .Td m | .Span m
  | .Section m | .I m | .P m | .Code m | .Pre m | .B m | .S m
  | .Sub m | .Sup m | .Mark m | .A m | .U m | .Link m | .Meta m
  | .Hr m | .Br m | .Img m => slugIterateMeta m
  | _ => ""

/-- `meta.get_children()` recursion of `iterate`. -/
def slugIterateMeta : Meta → String
  | .mk _ children => slugIterateList children

/-- Concatenated text of a child list, in order. -/
def slugIterateList : List Tag → String
  | [] => ""
  | t :: ts => slugIterate t ++ slugIterateList ts

end

/-- `heading_to_slug` of `utils.rs`: returns `(id, title)` for the already
transduced children of a heading. -/
def heading_to_slug (elements : List Tag) : String × String :=
  let text := slugIterateList elements
  let title := text
  let slug :=
    trimHyphens (replaceNonAscii (toLowerStr (remove_diacritics text)))
  (slug, title)

/-- Modelled from the spec: "text nodes HTML-escape `&`,`<`,`>` before
emission" (§4.1). This is the escaping function the specification claims is
applied to text payloads; it exists only to be compared with the code's
actual behaviour. -/
def specHtmlEscape (s : String) : String :=
  String.join (s.data.map (fun c =>
    if c = '&' then "&amp;"
    else if c = '<' then "&lt;"
    else if c = '>' then "&gt;"
    else String.singleton c))

/-! ## Traversal accumulator (`src/utils.rs`: `FrontMatter`, `State`) -/

/-- `FrontMatter` of `utils.rs`. -/
structure FrontMatter where
  title : String
  tags : List String
  author : String
  avatar : String

/-- `State` of `utils.rs` — the traversal accumulator.  The
`HashMap<String, usize>` is modelled as an association list with unique
keys (only lookups and single-key updates are performed); `date` is the
opaque `chrono` timestamp, carried as a string and only ever rendered by
the external formatter. -/
structure State where
  table_counter : Nat
  front_matter : Option FrontMatter
  footnote_counter : List (String × Nat)
  date : String
  definitions : List (String × List Tag)
  styles : List String
  word_count : Nat
  headings : List (Nat × String × String)
  domain : String

/-- `State::default()`. -/
def State.empty : State :=
  { table_counter := 0, front_matter := none, footnote_counter := []
    date := "", definitions := [], styles := [], word_count := 0
    headings := [], domain := "" }

/-- Association-list update of one existing key (the `and_modify` part of
the `HashMap` entry API). -/
def counterSet (m : List (String × Nat)) (k : String) (v : Nat) :
    List (String × Nat) :=
  m.map (fun p => if p.1 == k then (k, v) else p)

/-- The `footnote_counter.entry(label).and_modify(...).or_insert(1)` step
of the `FootnoteReference` arm (`main.rs` lines 366-375): returns the
updated map and the reference suffix `tag` (empty on first use, `:N` with
the pre-increment counter value afterwards). -/
def counterStep (m : List (String × Nat)) (k : String) :
    List (String × Nat) × String :=
  match List.lookup k m with
  | none => (m ++ [(k, 1)], "")
  | some c => (counterSet m k (c + 1), ":" ++ toString c)

/-! ## Input tree (`comrak::nodes::NodeValue`, as consumed by `main.rs`)

The node kinds whose transduction involves only this repository's code are
embedded.  The kinds that delegate to an external collaborator are omitted
(none of them is touched by a claim): `FrontMatter` (the `toml` parser),
`CodeBlock` (the `syntect` highlighter), `Link` (the `url` host parser),
`Image` (uses `Tag::Figure`, absent from this `html.rs`), and `ShortCode`
(the `emojis` crate). -/

/-- `comrak::nodes::ListType`. -/
inductive ListType where
  | Bullet
  | Ordered

/-- `comrak::nodes::TableAlignment`. -/
inductive TableAlignment where
  | None
  | Left
  | Center
  | Right

/-- The input-tree node (`comrak`'s `NodeValue` plus its child list).
`List'` stands for `NodeValue::List` (the quote avoids the clash with
Lean's `List`). -/
inductive Node where
  | Document (children : List Node)
  | BlockQuote (children : List Node)
  | List' (ty : ListType) (children : List Node)
  | Item (children : List Node)
  | DescriptionList (children : List Node)
  | DescriptionItem (children : List Node)
  | DescriptionTerm (children : List Node)
  | DescriptionDetails (children : List Node)
  | HtmlBlock (literal : String)
  | Paragraph (children : List Node)
  | Heading (level : Nat) (children : List Node)
  | ThematicBreak
  | FootnoteDefinition (label : String) (children : List Node)
  | Table (alignments : List TableAlignment) (children : List Node)
  | TableRow (header : Bool) (children : List Node)
  | TableCell (children : List Node)
  | Text (literal : String)
  | TaskItem (marker : Option Char) (children : List Node)
  | SoftBreak
  | LineBreak
  | Code (literal : String)
  | HtmlInline (literal : String)
  | Emph (children : List Node)
  | Strong (children : List Node)
  | Strikethrough (children : List Node)
  | Insert (children : List Node)
  | Superscript (children : List Node)
  | Subscript (children : List Node)
  | Highlight (children : List Node)
  | FootnoteReference (label : String)

/-- `alignment_to_str` of the `Table` arm (`main.rs` lines 174-182). -/
def alignment_to_str : TableAlignment → String
  | .Center => "center"
  | .Left => "left"
  | .None => "initial"
  | .Right => "right"

/-- One CSS rule pushed per table column (`main.rs` lines 184-191):
`.table-{c} td:nth-child({i+1}), .table-{c} th:nth-child({i+1})
\x7b text-align: {a} \x7d`. -/
def tableRule (counter idx : Nat) (alignment : TableAlignment) : String :=
  ".table-" ++ toString counter ++ " td:nth-child(" ++ toString (idx + 1)
    ++ "), .table-" ++ toString counter ++ " th:nth-child("
    ++ toString (idx + 1) ++ ") \x7b text-align: "
    ++ alignment_to_str alignment ++ " \x7d"

/-- `char_to_taskitem` of `utils.rs`. -/
def char_to_taskitem (ch : Char) : Tag :=
  let p : String × String :=
    match ch with
    | 'x' => ("square-check", "limegreen")
    | '-' => ("square-minus", "grey")
    | '+' => ("square-plus", "deepskyblue")
    | 'X' => ("square-xmark", "red")
    | _ => ("", "white")
  Tag.Span (Meta.new.with_attrs
    ["class=\"fa-solid fa-" ++ p.1 ++ "\"", "style=\"color: " ++ p.2 ++ "\""])

/-- `text.split_whitespace().collect::<Vec<_>>().len()` (`main.rs` line
240): the number of whitespace-delimited tokens. -/
def split_whitespace_count (s : String) : Nat :=
  ((s.split (fun c => c.isWhitespace)).filter (fun t => !t.isEmpty)).length

/-- UTF-8 decoding (fuel-indexed; the fuel is the byte length, an upper
bound on the number of characters).  Only applied to the valid UTF-8
produced by the substitution pipeline. -/
def decodeUtf8Aux : Nat → List Nat → List Char
  | 0, _ => []
  | _, [] => []
  | fuel + 1, b :: rest =>
    if b < 128 then Char.ofNat b :: decodeUtf8Aux fuel rest
    else if b < 224 then
      match rest with
      | b2 :: rest2 =>
          Char.ofNat ((b - 192) * 64 + (b2 - 128)) :: decodeUtf8Aux fuel rest2
      | [] => []
    else if b < 240 then
      match rest with
      | b2 :: b3 :: rest3 =>
          Char.ofNat ((b - 224) * 4096 + (b2 - 128) * 64 + (b3 - 128))
            :: decodeUtf8Aux fuel rest3
      | _ => []
    else
      match rest with
      | b2 :: b3 :: b4 :: rest4 =>
          Char.ofNat ((b - 240) * 262144 + (b2 - 128) * 4096
              + (b3 - 128) * 64 + (b4 - 128))
            :: decodeUtf8Aux fuel rest4
      | _ => []

/-- Bytes back to a string (inverse of `utf8` on valid encodings). -/
def decodeUtf8 (l : List Nat) : String :=
  String.mk (decodeUtf8Aux l.length l)

/-- The Text Substitution Pipeline invocation of the `Text` arm
(`main.rs` lines 242-244):
`replace_emoticons(&replace_typographer(&text))`, at the byte level;
`none` is a panic inside either pass. -/
def textPipeline (text : String) : Option String := do
  let t ← replace_typographer (utf8 text)
  let e ← replace_emoticons t
  some (decodeUtf8 e)

mutual

/-- `iter_nodes` of `main.rs`: the recursive transducer.  One output `Tag`
per input node, threading the accumulator `State`; `none` is a panic
anywhere below (the `Table` arm's `table_rows[0]` on a childless table,
substitution-pipeline underflows). -/
def iter_nodes (node : Node) (state : State) : Option (Tag × State) :=
  match node with
  | .Document children =>
      match iterChildren children state with
      | some (ts, s) => some (Tag.Section (Meta.new.with_children ts), s)
      | none => none
  | .BlockQuote children =>
      match iterChildren children state with
      | some (ts, s) => some (Tag.Blockquote (Meta.new.with_children ts), s)
      | none => none
  | .List' ty children =>
      match iterChildren children state with
      | some (ts, s) =>
        match ty with
        | .Bullet => some (Tag.Ul (Meta.new.with_children ts), s)
        | .Ordered => some (Tag.Ol (Meta.new.with_children ts), s)
      | none => none
  | .Item children =>
      match iterChildren children state with
      | some (ts, s) => some (Tag.Li (Meta.new.with_children ts), s)
      | none => none
  | .DescriptionList children =>
      match iterKidsList children state with
      | some (ts, s) => some (Tag.Dl (Meta.new.with_children ts), s)
      | none => none
  | .DescriptionItem _ => some (Tag.Empty, state)
  | .DescriptionTerm children =>
      match iterChildren children state with
      | some (ts, s) => some (Tag.Dt (Meta.new.with_children ts), s)
      | none => none
  | .DescriptionDetails children =>
      match iterChildren children state with
      | some (ts, s) => some (Tag.Dd (Meta.new.with_children ts), s)
      | none => none
  | .HtmlBlock literal => some (Tag.Raw literal, state)
  | .Paragraph children =>
      match iterChildren children state with
      | some (ts, s) => some (Tag.P (Meta.new.with_children ts), s)
      | none => none
  | .Heading level children =>
      match iterChildren children state with
      | some (ts, s) =>
        let slug := heading_to_slug ts
        let id := slug.1
        let title := slug.2
        let s' := { s with headings := s.headings ++ [(level, id, title)] }
        let ts' := ts ++ [Tag.A ((Meta.new.with_child
          (Tag.Text "&sect;")).with_attrs
            ["href=\"#heading__" ++ id ++ "\"", "class=\"section-logo\""])]
        let meta := (Meta.new.with_attr
          ("id=\"heading__" ++ id ++ "\"")).with_children ts'
        match level with
        | 1 => some (Tag.H1 meta, s')
        | 2 => some (Tag.H2 meta, s')
        | 3 => some (Tag.H3 meta, s')
        | 4 => some (Tag.H4 meta, s')
        | 5 => some (Tag.H5 meta, s')
        | 6 => some (Tag.H6 meta, s')
        | _ => none
      | none => none
  | .ThematicBreak => some (Tag.Hr Meta.new, state)
  | .FootnoteDefinition label children =>
      match iterChildren children state with
      | some (ts, s) =>
          some (Tag.Empty,
            { s with definitions := s.definitions ++ [(label, ts)] })
      | none => none
  | .Table alignments children =>
      let s1 := { state with table_counter := state.table_counter + 1 }
      let rules := alignments.enum.map
        (fun p => tableRule s1.table_counter p.1 p.2)
      let s2 := { s1 with styles := s1.styles ++ rules }
      match children with
      | [] => none
      | r0 :: rest =>
        match iter_nodes r0 s2 with
        | some (header_row, s3) =>
          match iterChildren rest s3 with
          | some (body_rows, s4) =>
              some (Tag.Table ((Meta.new.with_children
                [Tag.Thead (Meta.new.with_child header_row),
                 Tag.Tbody (Meta.new.with_children body_rows)]).with_attr
                ("class=\"table-" ++ toString s4.table_counter ++ "\"")), s4)
          | none => none
        | none => none
  | .TableRow header children =>
      if header then
        match iterHeaderCells children state with
        | some (ts, s) => some (Tag.Tr (Meta.new.with_children ts), s)
        | none => none
      else
        match iterChildren children state with
        | some (ts, s) => some (Tag.Tr (Meta.new.with_children ts), s)
        | none => none
  | .TableCell children =>
      match iterChildren children state with
      | some (ts, s) => some (Tag.Td (Meta.new.with_children ts), s)
      | none => none
  | .Text literal =>
      let s' := { state with
        word_count := state.word_count + split_whitespace_count literal }
      match textPipeline literal with
      | some out => some (Tag.Text out, s')
      | none => none
  | .TaskItem marker children =>
      let status :=
        match marker with
        | some ch => char_to_taskitem ch
        | none =>
            Tag.Span (Meta.new.with_attr "class=\"fa-regular fa-square\"")
      match iterKidsList children state with
      | some (ts, s) =>
          some (Tag.Li ((Meta.new.with_children
            (status :: ts)).with_attr "class=\"task-item\""), s)
      | none => none
  | .SoftBreak => some (Tag.Br Meta.new, state)
  | .LineBreak => some (Tag.Br Meta.new, state)
  | .Code literal =>
      some (Tag.Span ((Meta.new.with_child
        (Tag.Text literal)).with_attr "class=\"inline-code\""), state)
  | .HtmlInline literal => some (Tag.Raw literal, state)
  | .Emph children =>
      match iterChildren children state with
      | some (ts, s) => some (Tag.I (Meta.new.with_children ts), s)
      | none => none
  | .Strong children =>
      match iterChildren children state with
      | some (ts, s) => some (Tag.B (Meta.new.with_children ts), s)
      | none => none
  | .Strikethrough children =>
      match iterChildren children state with
      | some (ts, s) => some (Tag.S (Meta.new.with_children ts), s)
      | none => none
  | .Insert children =>
      match iterChildren children state with
      | some (ts, s) => some (Tag.U (Meta.new.with_children ts), s)
      | none => none
  | .Superscript children =>
      match iterChildren children state with
      | some (ts, s) => some (Tag.Sup (Meta.new.with_children ts), s)
      | none => none
  | .Subscript children =>
      match iterChildren children state with
      | some (ts, s) => some (Tag.Sub (Meta.new.with_children ts), s)
      | none => none
  | .Highlight children =>
      match iterChildren children state with
      | some (ts, s) => some (Tag.Mark (Meta.new.with_children ts), s)
      | none => none
  | .FootnoteReference label =>
      let step := counterStep state.footnote_counter label
      some (Tag.Sup (Meta.new.with_child (Tag.A ((Meta.new.with_child
          (Tag.Text ("[" ++ label ++ step.2 ++ "]"))).with_attrs
          ["href=\"#footnote-definition-" ++ label ++ "\"",
           "id=\"footnote-reference-" ++ label ++ step.2 ++ "\""]))),
        { state with footnote_counter := step.1 })

/-- Transduce a child list in order, threading the accumulator (the
`node.children().map(|child| iter_nodes(child, state)).collect()`
pattern). -/
def iterChildren (nodes : List Node) (state : State) :
    Option (List Tag × State) :=
  match nodes with
  | [] => some ([], state)
  | n :: ns =>
    match iter_nodes n state with
    | some (t, s) =>
      match iterChildren ns s with
      | some (ts, s') => some (t :: ts, s')
      | none => none
    | none => none

/-- Transduce the *grandchildren* of one node (the generic
`x.children()` iteration used when a wrapper level is flattened). -/
def iterKids (node : Node) (state : State) : Option (List Tag × State) :=
  match node with
  | .Document children | .BlockQuote children | .List' _ children
  | .Item children | .DescriptionList children
  | .DescriptionItem children | .DescriptionTerm children
  | .DescriptionDetails children | .Paragraph children
  | .Heading _ children | .FootnoteDefinition _ children
  | .Table _ children | .TableRow _ children | .TableCell children
  | .TaskItem _ children | .Emph children | .Strong children
  | .Strikethrough children | .Insert children | .Superscript children
  | .Subscript children | .Highlight children => iterChildren children state
  | _ => some ([], state)

/-- The one-level flattening loops (`DescriptionList`, `TaskItem`): for
each item, transduce the item's children directly, concatenating. -/
def iterKidsList (nodes : List Node) (state : State) :
    Option (List Tag × State) :=
  match nodes with
  | [] => some ([], state)
  | n :: ns =>
    match iterKids n state with
    | some (ts, s) =>
      match iterKidsList ns s with
      | some (ts2, s') => some (ts ++ ts2, s')
      | none => none
    | none => none

/-- The header branch of the `TableRow` arm (`main.rs` lines 214-221):
each header cell's children are transduced and wrapped in a `Th`. -/
def iterHeaderCells (cells : List Node) (state : State) :
    Option (List Tag × State) :=
  match cells with
  | [] => some ([], state)
  | cell :: rest =>
    match iterKids cell state with
    | some (ts, s) =>
      match iterHeaderCells rest s with
      | some (ths, s') =>
          some (Tag.Th (Meta.new.with_children ts) :: ths, s')
      | none => none
    | none => none

end

/-! ## Footnote resolver, TOC builder, document assembler
(`src/utils.rs`, `init`) -/

/-- Rust `str::parse::<usize>()`: an optional leading `+` then one or more
decimal digits (`u64` overflow for absurdly long inputs is not
modelled). -/
def parseUsize (s : String) : Option Nat :=
  let ds := match s.data with
    | '+' :: rest => rest
    | l => l
  if ds.isEmpty then none
  else if ds.all Char.isDigit then
    some (ds.foldl (fun acc c => acc * 10 + (c.toNat - 48)) 0)
  else none

/-- One back-reference anchor of the footnote resolver (`utils.rs` lines
243-250): `↩` linking to the matching reference id (unsuffixed for
`i = 0`, `:{i}` otherwise). -/
def backrefAnchor (definition : String) (i : Nat) : Tag :=
  Tag.A ((Meta.new.with_child (Tag.Text "↩")).with_attr
    ("href=\"#footnote-reference-" ++ definition
      ++ (if i > 0 then ":" ++ toString i else "") ++ "\""))

/-- `Vec::insert(i, x)`: panics (`none`) when `i > len`; shifts the
elements at `i..` right. -/
def listInsert {α : Type} (l : List α) (i : Nat) (x : α) : Option (List α) :=
  if i ≤ l.length then some (l.take i ++ x :: l.drop i) else none

/-- The resolved `<li>` for one footnote definition (`utils.rs` lines
252-261): content followed by one anchor per recorded reference. -/
def mkFootnoteItem (definition : String) (content : List Tag) (cnt : Nat) :
    Tag :=
  Tag.Li (Meta.new.with_child (Tag.Div ((Meta.new.with_children
    (content ++ (List.range cnt).map (backrefAnchor definition))).with_attr
    ("id=\"footnote-definition-" ++ definition ++ "\""))))

/-- The footnote-resolver loop of `init` (`utils.rs` lines 240-262):
for each recorded definition (in recording order) look up its reference
count (`state.footnote_counter[&definition]` — a panicking `HashMap`
index), parse its label (`must(definition.parse::<usize>())`), and
`Vec::insert` the resolved item at `label - 1`. -/
def resolveFootnotesGo (counter : List (String × Nat)) :
    List (String × List Tag) → List Tag → Option (List Tag)
  | [], footnotes => some footnotes
  | (definition, meta) :: ds, footnotes => do
      let cnt ← List.lookup definition counter
      let idx ← parseUsize definition
      let pos ← checkedSub idx 1
      let footnotes' ← listInsert footnotes pos
        (mkFootnoteItem definition meta cnt)
      resolveFootnotesGo counter ds footnotes'

/-- The footnote resolver: the final `footnotes` list of `init`. -/
def resolveFootnotes (definitions : List (String × List Tag))
    (counter : List (String × Nat)) : Option (List Tag) :=
  resolveFootnotesGo counter definitions []

/-- `labelsFromB b defs`: the labels of `defs` parse as the consecutive
integers `b+1, b+2, …` in recording order. -/
def labelsFromB (b : Nat) : List (String × List Tag) → Bool
  | [] => true
  | d :: ds => (parseUsize d.1 == some (b + 1)) && labelsFromB (b + 1) ds

/-- `format_heading` of `init` (`utils.rs` lines 277-314): increment slot
`depth - 1`, zero the slots at indices `depth..5` (note: the source loop
`for i in depth..5` stops at index 4 — slot 5 is never zeroed), then
render the dotted numeral from slots `0..depth`.  `none` models the
`unreachable!()` arm (and the `u8` underflow of `depth - 1` for a depth of
0); the parser only produces depths 1-6. -/
def formatHeading (hl : List Nat) (depth : Nat) :
    Option (List Nat × String) :=
  match depth with
  | 0 => none
  | d + 1 =>
    let hl1 := hl.set d (hl.getD d 0 + 1)
    let hl2 := hl1.mapIdx
      (fun i v => if decide (d + 1 ≤ i) && decide (i < 5) then 0 else v)
    match d + 1 with
    | 1 => some (hl2, toString (hl2.getD 0 0))
    | 2 => some (hl2, toString (hl2.getD 0 0) ++ "." ++ toString (hl2.getD 1 0))
    | 3 => some (hl2, toString (hl2.getD 0 0) ++ "." ++ toString (hl2.getD 1 0)
        ++ "." ++ toString (hl2.getD 2 0))
    | 4 => some (hl2, toString (hl2.getD 0 0) ++ "." ++ toString (hl2.getD 1 0)
        ++ "." ++ toString (hl2.getD 2 0) ++ "." ++ toString (hl2.getD 3 0))
    | 5 => some (hl2, toString (hl2.getD 0 0) ++ "." ++ toString (hl2.getD 1 0)
        ++ "." ++ toString (hl2.getD 2 0) ++ "." ++ toString (hl2.getD 3 0)
        ++ "." ++ toString (hl2.getD 4 0))
    | 6 => some (hl2, toString (hl2.getD 0 0) ++ "." ++ toString (hl2.getD 1 0)
        ++ "." ++ toString (hl2.getD 2 0) ++ "." ++ toString (hl2.getD 3 0)
        ++ "." ++ toString (hl2.getD 4 0) ++ "." ++ toString (hl2.getD 5 0))
    | _ => none

/-- The dotted numerals the TOC builder assigns to a heading-level
sequence, in document order (the `format_heading` closure folded over
`state.headings` exactly as the `toc` construction of `init` does). -/
def tocNumeralsGo (hl : List Nat) : List Nat → Option (List String)
  | [] => some []
  | d :: ds => do
      let step ← formatHeading hl d
      let rest ← tocNumeralsGo step.1 ds
      some (step.2 :: rest)

/-- TOC numerals from a fresh 6-slot counter array (`[0; 6]`). -/
def tocNumerals (levels : List Nat) : Option (List String) :=
  tocNumeralsGo [0, 0, 0, 0, 0, 0] levels

/-- The TOC entry list of `init` (`utils.rs` lines 316-337): one indented
`<p><a>` per heading, labelled `{numeral}. {title}`, linking to
`#heading__{id}`, with `padding-left: {depth * 20}px`. -/
def tocEntriesGo (hl : List Nat) :
    List (Nat × String × String) → Option (List Tag)
  | [] => some []
  | (depth, id, title) :: hs => do
      let step ← formatHeading hl depth
      let rest ← tocEntriesGo step.1 hs
      some (Tag.P ((Meta.new.with_child (Tag.A ((Meta.new.with_child
          (Tag.Text (step.2 ++ ". " ++ title))).with_attr
          ("href=\"#heading__" ++ id ++ "\"")))).with_attr
          ("style=\"padding-left: " ++ toString (depth * 20) ++ "px\""))
        :: rest)

/-- `init` of `utils.rs` — the document assembler.  The two external
collaborators are parameters: `minify` (the `css_minify` call, already
`must`-unwrapped) and `formatDate` (the `chrono` `format` call, taking the
format string and the opaque timestamp).  `none` models the fatal aborts:
missing front matter (`must(state.front_matter.ok_or(...))`), every panic
of the footnote-resolver loop, and the `unreachable!()` of
`format_heading`. -/
def init (minify : String → String) (formatDate : String → String → String)
    (sectionTag : Tag) (state : State) : Option Tag := do
  let front_matter ← state.front_matter
  let footnotes ← resolveFootnotes state.definitions state.footnote_counter
  let tags := front_matter.tags.map (fun tag =>
    Tag.A ((Meta.new.with_child (Tag.Text ("#" ++ tag))).with_attrs
      ["href=\"" ++ state.domain ++ "/tags/" ++ tag ++ "\"",
       "class=\"tag\""]))
  let tocEntries ← tocEntriesGo [0, 0, 0, 0, 0, 0] state.headings
  let toc := Tag.Div (Meta.new.with_children tocEntries)
  let families := String.intercalate "&family="
    (["Roboto", "Jetbrains Mono", "Open Sans"].map
      (fun font => font.replace " " "+"))
  let minified := (minify (String.join state.styles)).replace
    ":-webkit-scrollbar" "::-webkit-scrollbar"
  let head := Tag.Head (Meta.new.with_children [
    Tag.Meta (Meta.new.with_attr "charset=\"utf-8\""),
    Tag.Meta (Meta.new.with_attrs
      ["name=\"viewport\"", "content=\"width=device-width, initial-scale=1\""]),
    Tag.Meta (Meta.new.with_attrs
      ["property=\"og:title\"",
       "content=\"" ++ front_matter.title ++ "\""]),
    Tag.Link (Meta.new.with_attrs
      ["rel=\"stylesheet\"",
       "href=\"https://fonts.googleapis.com/css2?family=" ++ families ++ "\""]),
    Tag.Link (Meta.new.with_attrs
      ["rel=\"stylesheet\"",
       "href=\"https://unpkg.com/@fortawesome/fontawesome-free/css/all.min.css\""]),
    Tag.Title (Meta.new.with_child (Tag.Text front_matter.title)),
    Tag.Style (Meta.new.with_child (Tag.Raw minified))])
  let body := Tag.Body (Meta.new.with_children [
    Tag.Comment "META_CONTAINER_START",
    Tag.H1 (Meta.new.with_child (Tag.Text front_matter.title)),
    Tag.Div (Meta.new.with_children tags),
    Tag.Div ((Meta.new.with_children [
      Tag.Img (Meta.new.with_attrs
        ["src=\"" ++ front_matter.avatar ++ "\"",
         "alt=\"" ++ front_matter.author ++ "\""]),
      Tag.Span (Meta.new.with_child (Tag.A ((Meta.new.with_child
        (Tag.Text front_matter.author)).with_attr
        ("href=\"" ++ state.domain ++ "/authors/"
          ++ front_matter.author ++ "\"")))),
      Tag.Span (Meta.new.with_child (Tag.Text
        (toString (state.word_count / 120) ++ " min read &bull; "
          ++ formatDate "%e %B, %Y" state.date)))]).with_attr
      "class=\"meta-container\""),
    Tag.Comment "META_CONTAINER_END",
    Tag.Comment "TOC_START",
    Tag.Details (Meta.new.with_children [
      Tag.Summary (Meta.new.with_child (Tag.Span (Meta.new.with_child
        (Tag.Text "Table of Contents")))),
      toc]),
    Tag.Comment "TOC_END",
    Tag.Comment "BLOG_SECTION_START",
    sectionTag,
    Tag.Comment "BLOG_SECTION_END",
    Tag.Comment "FOOTNOTES_START",
    Tag.Section (Meta.new.with_children [
      Tag.Hr Meta.new,
      Tag.Ol (Meta.new.with_children footnotes)]),
    Tag.Comment "FOOTNOTES_END"])
  some (Tag.Doctype (Meta.new.with_children [
    Tag.Comment ("Generated using `md2html` by "
      ++ "`Blood Rogue (github.com/blood-rogue)` on "
      ++ formatDate "%d/%m/%Y %H:%M:%S" state.date ++ "."),
    Tag.Html head body]))

/-! ## Concrete scenario inputs and their expected values -/

/-- A document whose body references footnote label `"1"` three times and
records one definition for it. -/
def c5Doc : Node := Node.Document
  [Node.Paragraph [Node.FootnoteReference "1", Node.FootnoteReference "1",
    Node.FootnoteReference "1"],
   Node.FootnoteDefinition "1" [Node.Paragraph []]]

/-- The reference element emitted for label `"1"` with suffix `suffix`. -/
def c5Sup (suffix : String) : Tag :=
  Tag.Sup (Meta.mk [] [Tag.A (Meta.mk
    ["href=\"#footnote-definition-1\"",
     "id=\"footnote-reference-1" ++ suffix ++ "\""]
    [Tag.Text ("[1" ++ suffix ++ "]")])])

/-- One back-reference anchor of the resolved definition for label
`"1"`. -/
def c5Anchor (suffix : String) : Tag :=
  Tag.A (Meta.mk ["href=\"#footnote-reference-1" ++ suffix ++ "\""]
    [Tag.Text "↩"])

/-- The content tree expected for `c5Doc`. -/
def c5Section : Tag :=
  Tag.Section (Meta.mk []
    [Tag.P (Meta.mk [] [c5Sup "", c5Sup ":1", c5Sup ":2"]), Tag.Empty])

/-- The accumulator expected after transducing `c5Doc`. -/
def c5State : State :=
  { State.empty with
    footnote_counter := [("1", 3)]
    definitions := [("1", [Tag.P (Meta.mk [] [])])] }

/-- The resolved definition item expected for label `"1"`: the
definition's content followed by exactly three back-reference anchors, in
reference order. -/
def c5Item : Tag :=
  Tag.Li (Meta.mk [] [Tag.Div (Meta.mk ["id=\"footnote-definition-1\""]
    [Tag.P (Meta.mk [] []), c5Anchor "", c5Anchor ":1", c5Anchor ":2"])])

/-- A 3-column table with column alignments `[left, center, none]`, one
header row and one body row. -/
def c7Doc : Node := Node.Table
  [TableAlignment.Left, TableAlignment.Center, TableAlignment.None]
  [Node.TableRow true [Node.TableCell [], Node.TableCell [],
    Node.TableCell []],
   Node.TableRow false [Node.TableCell [], Node.TableCell [],
    Node.TableCell []]]

/-- An accumulator that already carries one CSS rule, to observe that the
table's rules are appended. -/
def c7Seed : State := { State.empty with styles := ["existing"] }

/-- The table element expected for `c7Doc`. -/
def c7Table : Tag :=
  Tag.Table (Meta.mk ["class=\"table-1\""]
    [Tag.Thead (Meta.mk [] [Tag.Tr (Meta.mk []
      [Tag.Th (Meta.mk [] []), Tag.Th (Meta.mk [] []),
       Tag.Th (Meta.mk [] [])])]),
     Tag.Tbody (Meta.mk [] [Tag.Tr (Meta.mk []
      [Tag.Td (Meta.mk [] []), Tag.Td (Meta.mk [] []),
       Tag.Td (Meta.mk [] [])])])])

/-- The accumulator expected after transducing `c7Doc` from `c7Seed`:
exactly three CSS rules appended, one per column, each selecting both the
`td` and `th` cells of the matching column of class `table-1`. -/
def c7State : State :=
  { State.empty with
    table_counter := 1
    styles := ["existing",
      ".table-1 td:nth-child(1), .table-1 th:nth-child(1) \x7b text-align: left \x7d",
      ".table-1 td:nth-child(2), .table-1 th:nth-child(2) \x7b text-align: center \x7d",
      ".table-1 td:nth-child(3), .table-1 th:nth-child(3) \x7b text-align: initial \x7d"] }

/-- An accumulator with front matter and one recorded footnote definition
whose label was never referenced (no `footnote_counter` entry). -/
def c10State : State :=
  { State.empty with
    front_matter := some { title := "T", tags := [], author := "a", avatar := "av" }
    definitions := [("1", [])] }

end MdHtml

namespace MdHtml

/-! ## Theorems -/

/-- C1, counterexample: the claim "serializing `Tag::Text(s)` writes the
escaped form of `s`" is false at `s = "<"`: the serializer writes `"<"`
verbatim, not `"&lt;"`. -/
theorem text_not_escaped_counterexample :
    toHtml (Tag.Text "<") ≠ specHtmlEscape "<" := by
  decide

/-- C1 (amended): the serializer emits both text-node and raw-node payloads
verbatim — no HTML escaping of `&`, `<`, `>` is performed on either (and no
other component of the pipeline escapes; `iter_nodes` even relies on this by
emitting entity references such as `&sect;` inside `Text` payloads). -/
theorem text_and_raw_written_verbatim (s : String) :
    toHtml (Tag.Text s) = s ∧ toHtml (Tag.Raw s) = s := by
  constructor <;> rfl

/-- C2, counterexample: the heading-level sequence `[1,2,2,1,3]` does not
produce the numerals `["1","1.1","1.2","2","2.1"]` claimed by the spec. -/
theorem toc_numerals_counterexample :
    tocNumerals [1, 2, 2, 1, 3] ≠ some ["1", "1.1", "1.2", "2", "2.1"] := by
  decide

/-- C2 (amended): for the heading-level sequence `[1,2,2,1,3]` the TOC
builder produces the dotted numerals `["1","1.1","1.2","2","2.0.1"]`: a
numeral for a level-`L` heading joins *all* slots `0..L`, including the
intervening level-2 slot that the level-1 heading at index 3 zeroed, so the
final level-3 heading renders as `"2.0.1"`, not `"2.1"`. -/
theorem toc_numerals_12213 :
    tocNumerals [1, 2, 2, 1, 3]
      = some ["1", "1.1", "1.2", "2", "2.0.1"] := by
  decide

/-- C6: the slug generator maps the heading title `"Héllo, World! 100%"`
to the id `"hello-world-100"` (and returns the unmodified title). -/
theorem heading_to_slug_hello :
    heading_to_slug [Tag.Text "Héllo, World! 100%"]
      = ("hello-world-100", "Héllo, World! 100%") := by
  decide

/-- C5: referencing footnote label `"1"` three times in one traversal
yields the reference ids `footnote-reference-1`, `footnote-reference-1:1`,
`footnote-reference-1:2` in document order (see `c5Sup`), leaves the
accumulator with `footnote_counter["1"] = 3`, and the resolver then builds
the definition item with exactly three back-reference anchors linking to
those ids, in that order (see `c5Item`). -/
theorem footnote_reference_suffixes :
    iter_nodes c5Doc State.empty = some (c5Section, c5State)
      ∧ resolveFootnotes c5State.definitions c5State.footnote_counter
          = some [c5Item] := by
  constructor <;> rfl

/-- C7: transducing a 3-column table with alignments
`[left, center, none]` appends exactly 3 CSS rules to `styles` — the rule
for column `i` selecting both `td:nth-child(i+1)` and `th:nth-child(i+1)`
of the table's generated class `table-1` with `text-align`
`left`/`center`/`initial` (`none` → `initial`) — and emits the
`thead`/`tbody` table element of that class. -/
theorem table_styles_three_columns :
    iter_nodes c7Doc c7Seed = some (c7Table, c7State) := by
  rfl

/-- C9: when the accumulator reaches the document assembler without front
matter, `init` aborts (`must` on the missing value) before any part of the
document tree is assembled: no output document exists. -/
theorem init_requires_front_matter
    (minify : String → String) (formatDate : String → String → String)
    (sectionTag : Tag) (state : State)
    (h : state.front_matter = none) :
    init minify formatDate sectionTag state = none := by
  simp [init, h]

/-- C9, witness. -/
theorem init_requires_front_matter_witness :
    State.empty.front_matter = none
      ∧ init id (fun _ d => d) Tag.Empty State.empty = none :=
  ⟨rfl, init_requires_front_matter id (fun _ d => d) Tag.Empty State.empty rfl⟩

/-- Helper for C10: the footnote-resolver loop panics whenever any
recorded definition's label has no `footnote_counter` entry (the panicking
`HashMap` index `state.footnote_counter[&definition]`), whatever else the
list contains and however the loop fares before reaching it. -/
theorem resolveFootnotesGo_none (counter : List (String × Nat))
    (label : String) (content : List Tag) :
    ∀ (ds : List (String × List Tag)) (acc : List Tag),
      (label, content) ∈ ds → List.lookup label counter = none →
      resolveFootnotesGo counter ds acc = none := by
  intro ds
  induction ds with
  | nil => intro acc h _; exact absurd h (List.not_mem_nil _)
  | cons d ds ih =>
    obtain ⟨dl, dc⟩ := d
    intro acc hmem hlook
    rcases List.mem_cons.mp hmem with heq | htail
    · have hdl : dl = label := congrArg Prod.fst heq.symm
      subst hdl
      simp [resolveFootnotesGo, hlook]
    · cases hl : List.lookup dl counter with
      | none => simp [resolveFootnotesGo, hl]
      | some cnt =>
        cases hp : parseUsize dl with
        | none => simp [resolveFootnotesGo, hl, hp]
        | some idx =>
          cases hc : checkedSub idx 1 with
          | none => simp [resolveFootnotesGo, hl, hp, hc]
          | some pos =>
            cases hi : listInsert acc pos (mkFootnoteItem dl dc cnt) with
            | none => simp [resolveFootnotesGo, hl, hp, hc, hi]
            | some acc' =>
              simp only [resolveFootnotesGo, hl, hp, hc, hi, Bind.bind,
                Option.some_bind]
              exact ih acc' htail hlook

/-- C10: an accumulator holding a footnote definition whose label was
never referenced (no `footnote_counter` entry) makes the document
assembler abort while resolving footnotes — it does not emit the
definition with zero back-reference anchors. -/
theorem init_panics_on_unreferenced_definition
    (minify : String → String) (formatDate : String → String → String)
    (sectionTag : Tag) (state : State) (fm : FrontMatter)
    (label : String) (content : List Tag)
    (hfm : state.front_matter = some fm)
    (hmem : (label, content) ∈ state.definitions)
    (hlook : List.lookup label state.footnote_counter = none) :
    init minify formatDate sectionTag state = none := by
  have hres : resolveFootnotes state.definitions state.footnote_counter
      = none :=
    resolveFootnotesGo_none state.footnote_counter label content
      state.definitions [] hmem hlook
  simp [init, hfm, resolveFootnotes] at hres ⊢
  simp [hres]

/-- C10, witness. -/
theorem init_panics_on_unreferenced_definition_witness :
    c10State.front_matter
        = some { title := "T", tags := [], author := "a", avatar := "av" }
      ∧ ("1", ([] : List Tag)) ∈ c10State.definitions
      ∧ List.lookup "1" c10State.footnote_counter = none
      ∧ init id (fun _ d => d) Tag.Empty c10State = none :=
  ⟨rfl, List.mem_singleton.mpr rfl, rfl,
    init_panics_on_unreferenced_definition id (fun _ d => d) Tag.Empty
      c10State _ "1" [] rfl (List.mem_singleton.mpr rfl) rfl⟩

/-- C3, counterexample: with the definition labeled `"2"` recorded before
the definition labeled `"1"` (both referenced once), the resolver panics
(`Vec::insert` at index 1 into an empty vector) instead of placing each
definition at `label - 1`: the placement is *not* independent of recording
order. -/
theorem footnote_insert_counterexample :
    resolveFootnotes [("2", []), ("1", [])] [("1", 1), ("2", 1)] = none := by
  rfl

/-- Helper for C3: when every definition's label parses to its recording
position plus one, each `Vec::insert(label - 1, …)` lands exactly at the
end of the accumulated list, so the loop reduces to `push` and the result
is the in-order map of the resolved items. -/
theorem resolveFootnotesGo_inorder (counter : List (String × Nat)) :
    ∀ (ds : List (String × List Tag)) (acc : List Tag),
      labelsFromB acc.length ds = true →
      (∀ d ∈ ds, (List.lookup d.1 counter).isSome = true) →
      resolveFootnotesGo counter ds acc
        = some (acc ++ ds.map (fun d =>
            mkFootnoteItem d.1 d.2 ((List.lookup d.1 counter).getD 0))) := by
  intro ds
  induction ds with
  | nil => intro acc _ _; simp [resolveFootnotesGo]
  | cons d ds ih =>
    obtain ⟨dl, dc⟩ := d
    intro acc hlab hlook
    have hl := hlook (dl, dc) (List.mem_cons_self _ _)
    obtain ⟨cnt, hcnt⟩ := Option.isSome_iff_exists.mp hl
    have hlab' := hlab
    simp only [labelsFromB, Bool.and_eq_true, beq_iff_eq] at hlab'
    obtain ⟨hp, hrest⟩ := hlab'
    have hsub : checkedSub (acc.length + 1) 1 = some acc.length := by
      simp [checkedSub]
    have hins : listInsert acc acc.length (mkFootnoteItem dl dc cnt)
        = some (acc ++ [mkFootnoteItem dl dc cnt]) := by
      simp [listInsert]
    have ihx := ih (acc ++ [mkFootnoteItem dl dc cnt])
      (by simpa using hrest)
      (fun d hd => hlook d (List.mem_cons_of_mem _ hd))
    simp only [resolveFootnotesGo, hcnt, hp, hsub, hins, Bind.bind,
      Option.some_bind]
    rw [ihx]
    simp [hcnt]

/-- C3 (amended): the footnote resolver places the definition labeled `k`
at final position `k-1` *provided the definitions were recorded in
increasing label order* (the definition at recording position `i` carries
the label that parses as `i+1`); equivalently, the result is the in-order
list of resolved items, so position `k-1` holds the item for label `k`.
For any other recording order the first definition whose label exceeds its
recording position + 1 makes `Vec::insert` panic and the run aborts
(counterexample above). -/
theorem resolveFootnotes_inorder (defs : List (String × List Tag))
    (counter : List (String × Nat))
    (h1 : labelsFromB 0 defs = true)
    (h2 : ∀ d ∈ defs, (List.lookup d.1 counter).isSome = true) :
    resolveFootnotes defs counter
      = some (defs.map (fun d =>
          mkFootnoteItem d.1 d.2 ((List.lookup d.1 counter).getD 0))) := by
  have := resolveFootnotesGo_inorder counter defs [] (by simpa using h1) h2
  simpa [resolveFootnotes] using this

/-- C3, witness. -/
theorem resolveFootnotes_inorder_witness :
    labelsFromB 0 [("1", ([] : List Tag)), ("2", [])] = true
      ∧ (∀ d ∈ [("1", ([] : List Tag)), ("2", [])],
          (List.lookup d.1 [("1", 1), ("2", 2)]).isSome = true)
      ∧ resolveFootnotes [("1", []), ("2", [])] [("1", 1), ("2", 2)]
          = some ([("1", ([] : List Tag)), ("2", [])].map (fun d =>
              mkFootnoteItem d.1 d.2
                ((List.lookup d.1 [("1", 1), ("2", 2)]).getD 0))) :=
  ⟨by decide, by decide,
    resolveFootnotes_inorder [("1", []), ("2", [])] [("1", 1), ("2", 2)]
      (by decide) (by decide)⟩

/-- C4, counterexample: the emoticon pass does *not* always return
normally.  On the input `":,'-("` the single match (the 5-byte "sob"
token) is replaced by the 4-byte emoji `😭`, after which the running
offset update `emoji.len() - match_len` underflows `usize` and the pass
aborts (panic under Rust's arithmetic-overflow checks). -/
theorem emoticon_underflow_counterexample :
    replace_emoticons (utf8 ":,'-(") = none := by
  decide

/-- C8, counterexample: the claim fails in both directions.  The input
`"party:)time :D"` contains `:)` without a whitespace boundary yet is
*not* returned unchanged (the bounded `:D` becomes `😄`); and on
`":) :,'-("` the bounded `:)` is *not* replaced in a normally returned
string, because the pass aborts on the sob-token underflow (C4). -/
theorem emoticon_boundary_counterexample :
    replace_emoticons (utf8 "party:)time :D")
        ≠ some (utf8 "party:)time :D")
      ∧ replace_emoticons (utf8 ":) :,'-(") = none := by
  constructor <;> decide

/-- A token returned by the alternative scan is one of the pattern's
alternatives and matches at the scan position. -/
theorem firstEmoticonAt_spec (rest : List Nat) :
    ∀ (ts : List (List Nat)) (t : List Nat),
      firstEmoticonAt rest ts = some t →
      t ∈ ts ∧ t.isPrefixOf rest = true := by
  intro ts
  induction ts with
  | nil => intro t h; simp [firstEmoticonAt] at h
  | cons u us ih =>
    intro t h
    simp only [firstEmoticonAt] at h
    split at h
    case isTrue hcond =>
      obtain rfl : u = t := by injection h
      have hc : u.isPrefixOf rest = true ∧ lookaheadOk rest u.length = true := by
        simpa using hcond
      exact ⟨List.mem_cons_self _ _, hc.1⟩
    case isFalse hcond =>
      obtain ⟨hmem, hpre⟩ := ih t h
      exact ⟨List.mem_cons_of_mem _ hmem, hpre⟩

/-- Every emoticon alternative is a nonempty token containing no regex
whitespace byte. -/
theorem emoticon_alts_ok :
    EMOTICON_ALTS.all
      (fun t => (!t.isEmpty) && t.all (fun b => !isWs b)) = true := by
  decide

/-- Emoticon tokens are nonempty. -/
theorem emoticon_alt_pos {t : List Nat} (h : t ∈ EMOTICON_ALTS) :
    0 < t.length := by
  have h1 := List.all_eq_true.mp emoticon_alts_ok t h
  cases t with
  | nil => simp at h1
  | cons _ _ => simp

/-- Emoticon tokens contain no whitespace byte. -/
theorem emoticon_alt_no_ws {t : List Nat} (h : t ∈ EMOTICON_ALTS)
    {b : Nat} (hb : b ∈ t) : isWs b = false := by
  have h1 := List.all_eq_true.mp emoticon_alts_ok t h
  have h2 : t.all (fun b => !isWs b) = true := by
    simpa using (by simpa using h1 : (!t.isEmpty) = true ∧ t.all (fun b => !isWs b) = true).2
  have := List.all_eq_true.mp h2 b hb
  simpa using this

/-- A prefix is no longer than the whole. -/
theorem isPrefixOf_length {t l : List Nat} (h : t.isPrefixOf l = true) :
    t.length ≤ l.length :=
  (List.isPrefixOf_iff_prefix.mp h).length_le

/-- Inside the prefix, the whole agrees with the prefix byte for byte. -/
theorem isPrefixOf_getElem {t l : List Nat} (h : t.isPrefixOf l = true)
    {k : Nat} (hk : k < t.length) : l[k]? = t[k]? := by
  obtain ⟨u, hu⟩ := List.isPrefixOf_iff_prefix.mp h
  subst hu
  rw [List.getElem?_append]
  simp [hk]

/-- `chainOk` weakens to earlier scan positions. -/
theorem chainOk_mono (s : List Nat) :
    ∀ (ms : List (Nat × List Nat)) (pos pos' : Nat),
      pos ≤ pos' → chainOk s pos' ms → chainOk s pos ms := by
  intro ms pos pos' hle h
  cases ms with
  | nil => trivial
  | cons m ms =>
    obtain ⟨i, t⟩ := m
    simp only [chainOk] at h ⊢
    exact ⟨le_trans hle h.1, h.2.1, h.2.2⟩

/-- The matches the scan finds are left-to-right, non-overlapping and in
bounds. -/
theorem chainOk_findEmoticonAux (s : List Nat) :
    ∀ (fuel i : Nat), chainOk s i (findEmoticonAux s fuel i) := by
  intro fuel
  induction fuel with
  | zero => intro i; simp [findEmoticonAux, chainOk]
  | succ fuel ih =>
    intro i
    simp only [findEmoticonAux]
    split
    case isTrue hi =>
      split
      case isTrue hlb =>
        cases hf : firstEmoticonAt (s.drop i) EMOTICON_ALTS with
        | none => exact chainOk_mono s _ i (i + 1) (by omega) (ih (i + 1))
        | some t =>
          obtain ⟨hmem, hpre⟩ := firstEmoticonAt_spec _ _ _ hf
          have hlen := isPrefixOf_length hpre
          rw [List.length_drop] at hlen
          exact ⟨le_refl i, by omega, ih (i + t.length)⟩
      case isFalse =>
        exact chainOk_mono s _ i (i + 1) (by omega) (ih (i + 1))
    case isFalse => simp [chainOk]

/-- Well-behaved matches make the spans reconstruction total. -/
theorem spansFrom_isSome (s : List Nat) :
    ∀ (ms : List (Nat × List Nat)) (pos : Nat),
      (∀ m ∈ ms, matchOkB m = true) →
      ∃ r, spansFrom s pos ms = some r := by
  intro ms
  induction ms with
  | nil => intro pos _; exact ⟨_, rfl⟩
  | cons m ms ih =>
    obtain ⟨i, t⟩ := m
    intro pos hok
    have hokh := hok (i, t) (List.mem_cons_self _ _)
    cases he : emojiB t with
    | none => simp [matchOkB, he] at hokh
    | some e =>
      obtain ⟨r, hr⟩ := ih (i + t.length)
        (fun m hm => hok m (List.mem_cons_of_mem _ hm))
      refine ⟨(s.drop pos).take (i - pos) ++ e ++ r, ?_⟩
      simp [spansFrom, he, hr]

/-- The offset-correcting replacement loop agrees with the spans
reconstruction: if the matches are a valid left-to-right chain over the
original string and every match's replacement is at least as long as its
token, the loop returns normally and each replacement lands exactly where
the spans semantics puts it.  `P` is the already-rebuilt prefix of the
output and `offset` the running byte-offset correction
(`P.length = pos + offset`). -/
theorem replaceEmoticonsGo_spans (s : List Nat) :
    ∀ (ms : List (Nat × List Nat)) (P : List Nat) (pos offset : Nat),
      P.length = pos + offset → pos ≤ s.length →
      chainOk s pos ms → (∀ m ∈ ms, matchOkB m = true) →
      replaceEmoticonsGo (P ++ s.drop pos) offset ms
        = (spansFrom s pos ms).map (fun r => P ++ r) := by
  intro ms
  induction ms with
  | nil =>
    intro P pos offset _ _ _ _
    simp [replaceEmoticonsGo, spansFrom]
  | cons m ms ih =>
    obtain ⟨i, t⟩ := m
    intro P pos offset hPlen hpos hchain hok
    simp only [chainOk] at hchain
    obtain ⟨hpi, hbound, hchain'⟩ := hchain
    have hokh := hok (i, t) (List.mem_cons_self _ _)
    cases he : emojiB t with
    | none => simp [matchOkB, he] at hokh
    | some e =>
    have hlen : t.length ≤ e.length := by
      simpa [matchOkB, he] using hokh
    have htk : ((s.drop pos).take (i - pos)).length = i - pos := by
      rw [List.length_take, List.length_drop]
      omega
    have hsp : splice (P ++ s.drop pos) (i + offset) t.length e
        = some ((P ++ (s.drop pos).take (i - pos)) ++ e
            ++ s.drop (i + t.length)) := by
      unfold splice
      rw [if_pos (by
        rw [List.length_append, List.length_drop]
        omega)]
      congr 1
      have h1 : (P ++ s.drop pos).take (i + offset)
          = P ++ (s.drop pos).take (i - pos) := by
        rw [List.take_append_eq_append_take,
          List.take_of_length_le (by omega),
          show i + offset - P.length = i - pos by omega]
      have h2 : (P ++ s.drop pos).drop (i + offset + t.length)
          = s.drop (i + t.length) := by
        rw [List.drop_append_eq_append_drop,
          List.drop_of_length_le (by omega),
          show i + offset + t.length - P.length = (i - pos) + t.length
            by omega,
          List.nil_append, List.drop_drop,
          show pos + ((i - pos) + t.length) = i + t.length by omega]
      rw [h1, h2]
    have hsub : checkedSub e.length t.length
        = some (e.length - t.length) := by
      simp [checkedSub, hlen]
    have hP'len : ((P ++ (s.drop pos).take (i - pos)) ++ e).length
        = (i + t.length) + (offset + (e.length - t.length)) := by
      rw [List.length_append, List.length_append, htk]
      omega
    have ihx := ih ((P ++ (s.drop pos).take (i - pos)) ++ e)
      (i + t.length) (offset + (e.length - t.length))
      hP'len (by omega) hchain'
      (fun m hm => hok m (List.mem_cons_of_mem _ hm))
    simp only [replaceEmoticonsGo, he, hsp, hsub, Bind.bind,
      Option.some_bind]
    rw [ihx]
    simp only [spansFrom, he, Bind.bind, Option.some_bind]
    cases hr : spansFrom s (i + t.length) ms with
    | none => simp [hr]
    | some r => simp [hr, List.append_assoc]

/-- C4 (amended): the emoticon pass replaces each matched token at the
correct byte position of the partially-mutated buffer via the running
byte-offset correction — its result agrees with rebuilding the output from
untouched spans of the original string — and returns normally, *provided*
no matched token is longer in bytes than its replacement emoji.  (The sole
table entry violating that proviso is the 5-byte sob token `":,'-("`,
whose emoji is 4 bytes: there the `usize` offset update underflows and the
pass aborts — see the counterexample.) -/
theorem replace_emoticons_offset_correct (s : List Nat)
    (h : ∀ m ∈ findEmoticonMatches s, matchOkB m = true) :
    ∃ out, replace_emoticons s = some out
      ∧ spansFrom s 0 (findEmoticonMatches s) = some out := by
  obtain ⟨r, hr⟩ := spansFrom_isSome s (findEmoticonMatches s) 0 h
  refine ⟨r, ?_, hr⟩
  have := replaceEmoticonsGo_spans s (findEmoticonMatches s) [] 0 0
    rfl (by omega) (chainOk_findEmoticonAux s (s.length + 1) 0) h
  simp only [List.nil_append, List.drop_zero] at this
  rw [replace_emoticons, this, hr]
  rfl

/-- C4, witness. -/
theorem replace_emoticons_offset_correct_witness :
    (∀ m ∈ findEmoticonMatches (utf8 "feeling :) today"),
        matchOkB m = true)
      ∧ ∃ out, replace_emoticons (utf8 "feeling :) today") = some out
          ∧ spansFrom (utf8 "feeling :) today") 0
              (findEmoticonMatches (utf8 "feeling :) today")) = some out :=
  ⟨by decide, replace_emoticons_offset_correct _ (by decide)⟩

/-- The emoticon alternation, evaluated to byte level. -/
theorem emoticon_alts_eq :
    EMOTICON_ALTS =
      [[62, 58, 40], [62, 58, 45, 40], [58, 34, 41], [58, 45, 34, 41],
       [60, 47, 51], [60, 92, 51], [58, 47], [58, 45, 47], [58, 39, 40],
       [58, 39, 45, 40], [58, 44, 40], [58, 44, 45, 40], [58, 40],
       [58, 45, 40], [60, 51], [93, 58, 40], [93, 58, 45, 40],
       [111, 58, 41], [79, 58, 41], [111, 58, 45, 41], [79, 58, 45, 41],
       [48, 58, 41], [48, 58, 45, 41], [58, 39, 41], [58, 39, 45, 41],
       [58, 44, 41], [58, 44, 45, 41], [58, 39, 68], [58, 39, 45, 68],
       [58, 44, 68], [58, 44, 45, 68], [58, 42], [58, 45, 42],
       [120, 45, 41], [88, 45, 41], [58, 124], [58, 45, 124], [58, 111],
       [58, 45, 111], [58, 79], [58, 45, 79], [58, 64], [58, 45, 64],
       [58, 68], [58, 45, 68], [58, 41], [58, 45, 41], [93, 58, 41],
       [93, 58, 45, 41], [58, 44, 39, 40], [58, 44, 39, 45, 40],
       [59, 40], [59, 45, 40], [58, 80], [58, 45, 80], [56, 45, 41],
       [66, 45, 41], [44, 58, 40], [44, 58, 45, 40], [44, 58, 41],
       [44, 58, 45, 41], [58, 115], [58, 45, 83], [58, 122],
       [58, 45, 90], [58, 36], [58, 45, 36], [59, 41], [59, 45, 41]] := by
  decide

/-- At a position whose suffix is `:)` followed by end-of-string or
whitespace, the alternative scan matches exactly the smiley token: every
alternative before `:)` in the pattern differs from `:)` within its first
two bytes, so the backtracking engine reaches and takes `:\)`. -/
theorem firstEmoticonAt_smiley (q : List Nat) (hq : wsHead q = true) :
    firstEmoticonAt (58 :: 41 :: q) EMOTICON_ALTS = some (utf8 ":)") := by
  have hout : (utf8 ":)") = [58, 41] := by decide
  rw [hout, emoticon_alts_eq]
  cases q with
  | nil => decide
  | cons b q' =>
    have hb : isWs b = true := by simpa [wsHead] using hq
    simp [firstEmoticonAt, List.isPrefixOf, lookaheadOk, hb]

/-- Destructuring a successful lookbehind at a positive position. -/
theorem lookbehind_succ (s : List Nat) (j : Nat)
    (h : lookbehindOk s (j + 1) = true) :
    ∃ b, s[j]? = some b ∧ isWs b = true := by
  simp only [lookbehindOk] at h
  cases hg : s[j]? with
  | none => simp [hg] at h
  | some b => rw [hg] at h; exact ⟨b, rfl, h⟩

/-- If the whole regex matches at position `i` (lookbehind plus some
alternative with its lookahead), the left-to-right scan started at any
position `j ≤ i` reports the match at `i`: no other match can cross `i`,
because position `i - 1` holds whitespace and tokens contain none. -/
theorem findEmoticonAux_mem (s : List Nat) (i : Nat) (t : List Nat)
    (hlb : lookbehindOk s i = true)
    (hft : firstEmoticonAt (s.drop i) EMOTICON_ALTS = some t) :
    ∀ (fuel j : Nat), j ≤ i → s.length ≤ fuel + j →
      (i, t) ∈ findEmoticonAux s fuel j := by
  obtain ⟨htmem, htpre⟩ := firstEmoticonAt_spec _ _ _ hft
  have htpos := emoticon_alt_pos htmem
  have htlen := isPrefixOf_length htpre
  rw [List.length_drop] at htlen
  have hi : i < s.length := by omega
  intro fuel
  induction fuel with
  | zero => intro j hj hfl; omega
  | succ fuel ih =>
    intro j hj hfl
    by_cases hji : j = i
    · subst hji
      simp only [findEmoticonAux]
      rw [if_pos hi, if_pos hlb, hft]
      exact List.mem_cons_self _ _
    · have hjlt : j < i := by omega
      have hjs : j < s.length := by omega
      simp only [findEmoticonAux]
      rw [if_pos hjs]
      by_cases hlbj : lookbehindOk s j = true
      · rw [if_pos hlbj]
        cases hfj : firstEmoticonAt (s.drop j) EMOTICON_ALTS with
        | none => exact ih (j + 1) (by omega) (by omega)
        | some u =>
          obtain ⟨humem, hupre⟩ := firstEmoticonAt_spec _ _ _ hfj
          have hult : j + u.length ≤ i := by
            by_contra hcon
            have hk : i - 1 - j < u.length := by omega
            have hbyte := isPrefixOf_getElem hupre hk
            rw [List.getElem?_drop,
              show j + (i - 1 - j) = i - 1 by omega] at hbyte
            have hi1 : i = (i - 1) + 1 := by omega
            rw [hi1] at hlb
            obtain ⟨w, hw, hwws⟩ := lookbehind_succ s (i - 1) hlb
            rw [hw] at hbyte
            have hwmem : w ∈ u := List.getElem?_mem hbyte.symm
            have := emoticon_alt_no_ws humem hwmem
            rw [hwws] at this
            cases this
          exact List.mem_cons_of_mem _ (ih (j + u.length) hult
            (by have := emoticon_alt_pos humem; omega))
      · rw [if_neg hlbj]
        exact ih (j + 1) (by omega) (by omega)

/-- A nonempty byte list ending in whitespace has that whitespace at index
`length - 1`. -/
theorem wsLast_getLast :
    ∀ (p : List Nat), p ≠ [] → wsLast p = true →
      ∃ b, p[p.length - 1]? = some b ∧ isWs b = true := by
  intro p
  induction p with
  | nil => intro h; exact absurd rfl h
  | cons a p' ih =>
    intro _ hws
    cases p' with
    | nil => exact ⟨a, rfl, by simpa [wsLast] using hws⟩
    | cons c p'' =>
      have hws' : wsLast (c :: p'') = true := by simpa [wsLast] using hws
      obtain ⟨b, hb, hbw⟩ := ih (by simp) hws'
      refine ⟨b, ?_, hbw⟩
      show (a :: c :: p'')[p''.length + 1]? = some b
      rw [List.getElem?_cons_succ]
      simpa using hb

/-- The lookbehind `(?<=^|\s)` holds at the boundary after a prefix that
is empty or ends in whitespace. -/
theorem wsLast_lookbehind (p r : List Nat) (hp : wsLast p = true) :
    lookbehindOk (p ++ r) p.length = true := by
  cases hpe : p with
  | nil => rfl
  | cons a p' =>
    obtain ⟨b, hb, hbw⟩ := wsLast_getLast (a :: p') (by simp)
      (by rw [← hpe]; exact hpe ▸ hp)
    show lookbehindOk ((a :: p') ++ r) (p'.length + 1) = true
    simp only [lookbehindOk]
    have hix : ((a :: p') ++ r)[p'.length]? = some b := by
      rw [List.getElem?_append_left (by simp)]
      simpa using hb
    rw [hix]
    exact hbw

/-- C8 (amended): (i) every occurrence of `:)` bounded by
start-of-string/whitespace on the left and end-of-string/whitespace on the
right is found by the emoticon scan as a match at that byte position, and
its token resolves to the smiley emoji `😃` — so whenever the pass
completes (which it does unless a sob token triggers the C4 underflow,
see the counterexample), that occurrence is replaced by the smiley glyph;
(ii) every input in which the scan finds no token at all is returned
unchanged — in particular `"party:)time"`, whose `:)` lacks the boundary
whitespace. -/
theorem smiley_bounded_matched_unbounded_unchanged :
    (∀ (p q : List Nat), wsLast p = true → wsHead q = true →
        (p.length, utf8 ":)")
            ∈ findEmoticonMatches (p ++ (utf8 ":)" ++ q))
          ∧ emojiB (utf8 ":)") = some (utf8 "😃"))
      ∧ (∀ s : List Nat, findEmoticonMatches s = [] →
          replace_emoticons s = some s) := by
  constructor
  · intro p q hp hq
    refine ⟨?_, by decide⟩
    have hdrop : (p ++ (utf8 ":)" ++ q)).drop p.length = utf8 ":)" ++ q :=
      List.drop_left p _
    have hft : firstEmoticonAt ((p ++ (utf8 ":)" ++ q)).drop p.length)
        EMOTICON_ALTS = some (utf8 ":)") := by
      rw [hdrop]
      exact firstEmoticonAt_smiley q hq
    have hlb : lookbehindOk (p ++ (utf8 ":)" ++ q)) p.length = true :=
      wsLast_lookbehind p _ hp
    exact findEmoticonAux_mem (p ++ (utf8 ":)" ++ q)) p.length
      (utf8 ":)") hlb hft ((p ++ (utf8 ":)" ++ q)).length + 1) 0
      (by omega) (by omega)
  · intro s h
    rw [replace_emoticons, h]
    rfl

/-- C8, witness: in `"feeling :) today"` the bounded `:)` (at byte
position 8, after the whitespace-terminated prefix `"feeling "`) is
matched and maps to the smiley emoji; `"party:)time"` produces no match
and is returned unchanged. -/
theorem smiley_bounded_matched_unbounded_unchanged_witness :
    (wsLast (utf8 "feeling ") = true ∧ wsHead (utf8 " today") = true
      ∧ ((utf8 "feeling ").length, utf8 ":)")
          ∈ findEmoticonMatches
              (utf8 "feeling " ++ (utf8 ":)" ++ utf8 " today"))
      ∧ emojiB (utf8 ":)") = some (utf8 "😃"))
      ∧ (findEmoticonMatches (utf8 "party:)time") = []
        ∧ replace_emoticons (utf8 "party:)time")
            = some (utf8 "party:)time")) :=
  ⟨⟨by decide, by decide,
    (smiley_bounded_matched_unbounded_unchanged.1 (utf8 "feeling ")
      (utf8 " today") (by decide) (by decide)).1,
    (smiley_bounded_matched_unbounded_unchanged.1 (utf8 "feeling ")
      (utf8 " today") (by decide) (by decide)).2⟩,
   ⟨by decide,
    smiley_bounded_matched_unbounded_unchanged.2 (utf8 "party:)time")
      (by decide)⟩⟩

end MdHtml
